import Mathlib

/-!
Verification development for the DR-validation engine of `econml/validate/drtester.py`.

The embedding works over exact rationals (`ℚ`).  Sample weights are rational
vectors that the code coerces to integers (`numpy` `astype(int)`, truncation
toward zero).  Two-dimensional `numpy` arrays are embedded as `NpArray`, a
row-major flat data list together with an explicit shape, so that the
`squeeze` / `newaxis` shape normalizations of the source can be reproduced
exactly.  External capabilities (the CATE model's `effect` query, the WLS
regression of `statsmodels`, `calc_uplift` and `weighted_se` from modules not
in scope, and the scipy normal survival function) enter as opaque function
parameters; only their call interfaces are embedded.
-/

/-- `numpy` `astype(int)` on one float entry: truncation toward zero. -/
def truncQ (q : ℚ) : ℤ := q.num.tdiv (q.den : ℤ)

/-- `sampleweight.astype(int)` applied to a weight vector. -/
def toIntWeights (ws : List ℚ) : List ℤ := ws.map truncQ

/-- `np.all(w >= 1)`: the assertion check on converted integer weights. -/
def weightsValid (ws : List ℤ) : Bool := ws.all (fun w => 1 ≤ w)

/-- `np.sum` of an integer weight vector, as a rational. -/
def wSumZ (ws : List ℤ) : ℚ := (ws.map (fun w => (w : ℚ))).sum

/-- `np.average(vs, weights=ws)` with integer weights: `Σ w·v / Σ w`. -/
def wAvgI (vs : List ℚ) (ws : List ℤ) : ℚ :=
  ((vs.zip ws).map (fun p => p.1 * (p.2 : ℚ))).sum / wSumZ ws

/-- `np.average(vs, weights=ws)` with rational weights. -/
def wAvgQ (vs : List ℚ) (ws : List ℚ) : ℚ :=
  ((vs.zip ws).map (fun p => p.1 * p.2)).sum / ws.sum

/-- A `numpy` array: explicit shape plus row-major flat data. -/
structure NpArray where
  shape : List ℕ
  data : List ℚ
deriving DecidableEq, Inhabited

/-- `np.stack` of a list of equal-length 1-D vectors: shape `(k, n)`. -/
def npStack (vals : List (List ℚ)) : NpArray :=
  { shape := [vals.length, (vals.headD []).length], data := vals.flatten }

/-- `.T` on a 2-D array (identity on other ranks, as unreachable here). -/
def NpArray.T (a : NpArray) : NpArray :=
  match a.shape with
  | [r, c] =>
    { shape := [c, r],
      data := (List.range c).flatMap
        (fun i => (List.range r).map (fun j => a.data.getD (j * c + i) 0)) }
  | _ => a

/-- `np.squeeze`: drop every axis of extent 1, keeping the data. -/
def NpArray.squeeze (a : NpArray) : NpArray :=
  { shape := a.shape.filter (fun d => d ≠ 1), data := a.data }

/-- The `if arr.ndim == 1: arr = arr[..., np.newaxis]` normalization. -/
def ensure2d (a : NpArray) : NpArray :=
  if a.shape.length = 1 then { shape := a.shape ++ [1], data := a.data } else a

/-- Column `k` of a 2-D array (`arr[:, k]`). -/
def NpArray.col (a : NpArray) (k : ℕ) : List ℚ :=
  let n := a.shape.headD 0
  let m := a.shape.getD 1 1
  (List.range n).map (fun i => a.data.getD (i * m + k) 0)

/-- `np.sort(np.unique(D))`: the sorted list of distinct treatment values. -/
def sortedUnique (l : List ℤ) : List ℤ := l.toFinset.sort (· ≤ ·)

/-- Modelled from the spec: the weight expansion used by `weighted_stat`
(`econml/validate/weighted_utils.py`, not under `src/`): each value is
repeated `weight` times ("quantile of the weight-expanded distribution"). -/
def expandWeighted (vals : List ℚ) (ws : List ℤ) : List ℚ :=
  (vals.zip ws).flatMap (fun p => List.replicate p.2.toNat p.1)

/-- `np.quantile` with the default linear interpolation, on a sorted list:
the virtual index is `h = q·(m-1)` and the result interpolates between the
neighbouring order statistics. -/
def quantileSorted (a : List ℚ) (q : ℚ) : ℚ :=
  let h : ℚ := q * ((a.length : ℚ) - 1)
  let j : ℕ := (⌊h⌋).toNat
  let g : ℚ := h - (j : ℚ)
  a.getD j 0 + g * (a.getD (j + 1) 0 - a.getD j 0)

/-- Modelled from the spec: `weighted_stat(values, q=np.linspace(0,1,n_groups+1),
sample_weight, mode='quantile')` (`econml/validate/weighted_utils.py`, not under
`src/`): the `n_groups+1` weighted-quantile cut points of the weight-expanded
distribution at levels `i/n_groups`. -/
def weighted_stat_quantile (vals : List ℚ) (ws : List ℤ) (n_groups : ℕ) : List ℚ :=
  let ex := (expandWeighted vals ws).insertionSort (· ≤ ·)
  (List.range (n_groups + 1)).map (fun i : ℕ => quantileSorted ex ((i : ℚ) / (n_groups : ℚ)))

/-- The bin-membership mask of `evaluate_cal`: for `i < n_groups - 1` the bin is
`[cuts[i], cuts[i+1])`; the last bin is closed on both ends. -/
def groupInd (cuts : List ℚ) (n_groups i : ℕ) (x : ℚ) : Bool :=
  if i < n_groups - 1 then
    decide (cuts.getD i 0 ≤ x) && decide (x < cuts.getD (i + 1) 0)
  else
    decide (cuts.getD i 0 ≤ x) && decide (x ≤ cuts.getD (i + 1) 0)

/-- The rows (CATE prediction, DR outcome, weight) of the validation sample
falling in bin `i`. -/
def binRows (cuts : List ℚ) (n_groups i : ℕ) (catev drv : List ℚ) (ws : List ℤ) :
    List (ℚ × ℚ × ℤ) :=
  ((catev.zip (drv.zip ws))).filter (fun r => groupInd cuts n_groups i r.1)

/-- The per-bin statistics accumulated by the `evaluate_cal` loop. -/
structure BinStat where
  prob : ℚ
  gate : ℚ
  seGate : ℚ
  gCate : ℚ
  seGCate : ℚ
deriving DecidableEq, Inhabited

/-- One iteration of the bin loop of `evaluate_cal`: empty bins are skipped and
keep the zero initialization of every accumulator. `wse` is the opaque
`weighted_se` of `econml/validate/weighted_utils.py` (not under `src/`). -/
def binStat (cuts : List ℚ) (n_groups i : ℕ) (catev drv : List ℚ) (ws : List ℤ)
    (wse : List ℚ → List ℤ → ℚ) : BinStat :=
  let mem := binRows cuts n_groups i catev drv ws
  if mem.isEmpty then ⟨0, 0, 0, 0, 0⟩
  else
    let mws := mem.map (fun r => r.2.2)
    { prob := wSumZ mws / wSumZ ws,
      gate := wAvgI (mem.map (fun r => r.2.1)) mws,
      seGate := wse (mem.map (fun r => r.2.1)) mws,
      gCate := wAvgI (mem.map (fun r => r.1)) mws,
      seGCate := wse (mem.map (fun r => r.1)) mws }

/-- The per-arm output of `evaluate_cal`: the five per-bin arrays (as in the
plotting data frame) together with the calibration score of the arm. -/
structure CalArmOut where
  ind : List ℕ
  probs : List ℚ
  gate : List ℚ
  se_gate : List ℚ
  g_cate : List ℚ
  se_g_cate : List ℚ
  score : ℚ
deriving DecidableEq, Inhabited

/-- The per-arm computation of `evaluate_cal`: group statistics over all bins,
then `cal_score_g = Σ |gate - g_cate|·probs`, `cal_score_o = Σ |gate - ate|·probs`
and the score `1 - cal_score_g / cal_score_o`. -/
def calArm (cuts : List ℚ) (n_groups : ℕ) (catev drv : List ℚ) (ws : List ℤ)
    (ateK : ℚ) (wse : List ℚ → List ℤ → ℚ) : CalArmOut :=
  let stats := (List.range n_groups).map (fun i => binStat cuts n_groups i catev drv ws wse)
  let probs := stats.map (fun st => st.prob)
  let gate := stats.map (fun st => st.gate)
  let gCate := stats.map (fun st => st.gCate)
  let calG := (((gate.zip gCate).zip probs).map (fun p => |p.1.1 - p.1.2| * p.2)).sum
  let calO := ((gate.zip probs).map (fun p => |p.1 - ateK| * p.2)).sum
  { ind := List.range n_groups,
    probs := probs,
    gate := gate,
    se_gate := stats.map (fun st => st.seGate),
    g_cate := gCate,
    se_g_cate := stats.map (fun st => st.seGCate),
    score := 1 - calG / calO }

/-- Claim-side quantity: the weighted probability mass of bin `i`
(bin weight total over the full validation weight total). -/
def binMassSpec (cuts : List ℚ) (n_groups i : ℕ) (catev drv : List ℚ) (ws : List ℤ) : ℚ :=
  wSumZ ((binRows cuts n_groups i catev drv ws).map (fun r => r.2.2)) / wSumZ ws

/-- Claim-side quantity: the weighted mean DR outcome of bin `i`. -/
def gateSpec (cuts : List ℚ) (n_groups i : ℕ) (catev drv : List ℚ) (ws : List ℤ) : ℚ :=
  wAvgI ((binRows cuts n_groups i catev drv ws).map (fun r => r.2.1))
        ((binRows cuts n_groups i catev drv ws).map (fun r => r.2.2))

/-- Claim-side quantity: the weighted mean CATE prediction of bin `i`. -/
def gCateSpec (cuts : List ℚ) (n_groups i : ℕ) (catev drv : List ℚ) (ws : List ℤ) : ℚ :=
  wAvgI ((binRows cuts n_groups i catev drv ws).map (fun r => r.1))
        ((binRows cuts n_groups i catev drv ws).map (fun r => r.2.2))

/-- Claim-side quantity: `Cal_G = Σ_i π_i |gate_i - g_cate_i|`. -/
def calGSpec (cuts : List ℚ) (n_groups : ℕ) (catev drv : List ℚ) (ws : List ℤ) : ℚ :=
  ((List.range n_groups).map (fun i =>
    binMassSpec cuts n_groups i catev drv ws *
      |gateSpec cuts n_groups i catev drv ws - gCateSpec cuts n_groups i catev drv ws|)).sum

/-- Claim-side quantity: `Cal_O = Σ_i π_i |gate_i - ATE_k|`. -/
def calOSpec (cuts : List ℚ) (n_groups : ℕ) (catev drv : List ℚ) (ws : List ℤ)
    (ateK : ℚ) : ℚ :=
  ((List.range n_groups).map (fun i =>
    binMassSpec cuts n_groups i catev drv ws *
      |gateSpec cuts n_groups i catev drv ws - ateK|)).sum

/-- Result object of the calibration test (`CalibrationEvaluationResults`). -/
structure CalibrationEvaluationResults where
  cal_r_squared : List ℚ
  plot_data_dict : List (ℤ × CalArmOut)
  treatments : List ℤ
deriving DecidableEq, Inhabited

/-- Result object of the BLP test (`BLPEvaluationResults`). -/
structure BLPEvaluationResults where
  params : List ℚ
  errs : List ℚ
  pvals : List ℚ
  treatments : List ℤ
deriving DecidableEq, Inhabited

/-- Result object of the uplift test (`UpliftEvaluationResults`). -/
structure UpliftEvaluationResults where
  params : List ℚ
  errs : List ℚ
  pvals : List ℚ
  treatments : List ℤ
  curve_data_dict : List (ℤ × List ℚ)
deriving DecidableEq, Inhabited

/-- Combined result object of `evaluate_all` (`EvaluationResults`). -/
structure EvaluationResults where
  blp_res : BLPEvaluationResults
  cal_res : CalibrationEvaluationResults
  qini_res : UpliftEvaluationResults
  toc_res : UpliftEvaluationResults
deriving DecidableEq, Inhabited

/-- The mutable instance state of a `DRTester`.  Attributes that Python sets
only in later method calls are `Option`s (`none` models a missing attribute,
mirroring the `hasattr` checks).  The field `cate` is the external CATE
capability: `cate X t0 t1` embeds `self.cate.effect(X=X, T0=t0, T1=t1)`. -/
structure DRTesterState where
  cate : List (List ℚ) → ℤ → ℤ → List ℚ
  Dval : List ℤ
  treatments : List ℤ
  n_treat : ℕ
  fit_on_train : Bool
  dr_val_ : Option NpArray
  dr_train_ : Option NpArray
  ate_val : List ℚ
  cate_preds_val_ : Option NpArray
  cate_preds_train_ : Option NpArray
  cal_res : Option CalibrationEvaluationResults
  blp_res : Option BLPEvaluationResults
  uplift_res : Option UpliftEvaluationResults
  res : Option EvaluationResults
deriving Inhabited

/-- The state right after `__init__`: no fitted attribute exists yet. -/
def initState (cate : List (List ℚ) → ℤ → ℤ → List ℚ) : DRTesterState :=
  { cate := cate, Dval := [], treatments := [], n_treat := 0, fit_on_train := false,
    dr_val_ := none, dr_train_ := none, ate_val := [],
    cate_preds_val_ := none, cate_preds_train_ := none,
    cal_res := none, blp_res := none, uplift_res := none, res := none }

/-- Modelled from the spec: `calculate_dr_outcomes` (`econml/validate/utils.py`,
not under `src/`). For each unit and each non-control arm `t` the AIPW contrast
`(reg_t - reg_0) + 1{D=t}/prop_t·(y - reg_t) - 1{D=0}/prop_0·(y - reg_0)`,
stacked into an `n × n_treat` matrix (2-D also for a single arm). -/
def calculate_dr_outcomes (D : List ℤ) (y : List ℚ) (reg_preds prop_preds : NpArray)
    (treatments : List ℤ) : NpArray :=
  let n := D.length
  let nt := treatments.length - 1
  { shape := [n, nt],
    data := (List.range n).flatMap (fun j =>
      (List.range nt).map (fun t =>
        let rt := (reg_preds.col (t + 1)).getD j 0
        let r0 := (reg_preds.col 0).getD j 0
        let pt := (prop_preds.col (t + 1)).getD j 0
        let p0 := (prop_preds.col 0).getD j 0
        let yj := y.getD j 0
        let dj := D.getD j 0
        (rt - r0) + (if dj = treatments.getD (t + 1) 0 then (yj - rt) / pt else 0)
                  - (if dj = treatments.getD 0 0 then (yj - r0) / p0 else 0))) }

/-- `fit_nuisance`: records the treatment structure of the validation sample,
builds the DR outcome matrices and the validation ATE.  The nuisance
predictions (outputs of `fit_nuisance_cv` / `fit_nuisance_train`, which only
wrap the external regression/propensity capabilities) are passed in as opaque
inputs; `train?` bundles `(Dtrain, ytrain, reg_preds_train, prop_preds_train)`
and is `none` exactly when no training data is supplied. -/
def fit_nuisance (s : DRTesterState) (Dval : List ℤ) (yval : List ℚ)
    (train? : Option (List ℤ × List ℚ × NpArray × NpArray))
    (reg_preds_val prop_preds_val : NpArray)
    (sampleweightval? : Option (List ℚ)) : DRTesterState :=
  let treatments := sortedUnique Dval
  let nT := treatments.length - 1
  let drVal := ensure2d (calculate_dr_outcomes Dval yval reg_preds_val prop_preds_val treatments)
  let wv := sampleweightval?.getD (List.replicate Dval.length (1 : ℚ))
  let base :=
    { s with
      Dval := Dval, treatments := treatments, n_treat := nT,
      fit_on_train := train?.isSome,
      dr_val_ := some drVal,
      ate_val := (List.range nT).map (fun t => wAvgQ (drVal.col t) wv) }
  match train? with
  | none => base
  | some (dt, yt, regT, propT) =>
    { base with dr_train_ := some (ensure2d (calculate_dr_outcomes dt yt regT propT treatments)) }

/-- `get_cate_preds`: query the CATE capability for each non-control arm
against control, `np.stack(vals).T.squeeze()`, then restore a trailing axis
when the squeeze left a 1-D array. -/
def get_cate_preds (s : DRTesterState) (Xval : List (List ℚ))
    (Xtrain? : Option (List (List ℚ))) : DRTesterState :=
  let base := s.treatments.headD 0
  let vals := s.treatments.tail.map (fun t => s.cate Xval base t)
  let cpv := ensure2d (npStack vals).T.squeeze
  let s1 := { s with cate_preds_val_ := some cpv }
  match Xtrain? with
  | none => s1
  | some xt =>
    let trains := s.treatments.tail.map (fun t => s.cate xt base t)
    { s1 with cate_preds_train_ := some (ensure2d (npStack trains).T.squeeze) }

/-- The per-arm loop of `evaluate_cal` and the construction of its
`CalibrationEvaluationResults`, on already-converted integer weights. -/
def cal_results (s1 : DRTesterState) (n_groups : ℕ) (swvI swtI : List ℤ)
    (wse : List ℚ → List ℤ → ℚ) : CalibrationEvaluationResults :=
  let cpv := s1.cate_preds_val_.getD ⟨[], []⟩
  let cpt := s1.cate_preds_train_.getD ⟨[], []⟩
  let dv := s1.dr_val_.getD ⟨[], []⟩
  let outs := (List.range s1.n_treat).map (fun k =>
    let cuts := weighted_stat_quantile (cpt.col k) swtI n_groups
    calArm cuts n_groups (cpv.col k) (dv.col k) swvI (s1.ate_val.getD k 0) wse)
  { cal_r_squared := outs.map (fun o => o.score),
    plot_data_dict := s1.treatments.tail.zip outs,
    treatments := s1.treatments }

/-- `evaluate_cal`: the calibration test.  `wse` is the opaque `weighted_se`. -/
def evaluate_cal (s : DRTesterState) (Xval? Xtrain? : Option (List (List ℚ)))
    (n_groups : ℕ) (sampleweightval? sampleweighttrain? : Option (List ℚ))
    (wse : List ℚ → List ℤ → ℚ) :
    Except String (DRTesterState × CalibrationEvaluationResults) :=
  if s.dr_train_.isNone then
    .error "Must fit nuisance models on training sample data to use calibration test"
  else
    let step : Except String DRTesterState :=
      if s.cate_preds_train_.isNone || s.cate_preds_val_.isNone then
        match Xval?, Xtrain? with
        | some xv, some xt => .ok (get_cate_preds s xv (some xt))
        | _, _ => .error "CATE predictions not yet calculated - must provide both Xval, Xtrain"
      else .ok s
    match step with
    | .error e => .error e
    | .ok s1 =>
      let cpv := s1.cate_preds_val_.getD ⟨[], []⟩
      let cpt := s1.cate_preds_train_.getD ⟨[], []⟩
      let swt := sampleweighttrain?.getD (List.replicate (cpt.shape.headD 0) (1 : ℚ))
      let swv := sampleweightval?.getD (List.replicate (cpv.shape.headD 0) (1 : ℚ))
      let swvI := toIntWeights swv
      let swtI := toIntWeights swt
      if !(weightsValid swvI) then .error "Sample weights must be integer and >= 1"
      else if !(weightsValid swtI) then .error "Sample weights must be integer and >= 1"
      else
        let res := cal_results s1 n_groups swvI swtI wse
        .ok ({ s1 with cal_res := some res }, res)

/-- The per-arm regressions of `evaluate_blp` and the construction of its
`BLPEvaluationResults`. -/
def blp_results (s1 : DRTesterState) (swv : List ℚ)
    (wls : List ℚ → List ℚ → List ℚ → ℚ × ℚ × ℚ) : BLPEvaluationResults :=
  let cpv := s1.cate_preds_val_.getD ⟨[], []⟩
  let dv := s1.dr_val_.getD ⟨[], []⟩
  let regs := (List.range s1.n_treat).map (fun k => wls (dv.col k) (cpv.col k) swv)
  { params := regs.map (fun r => r.1),
    errs := regs.map (fun r => r.2.1),
    pvals := regs.map (fun r => r.2.2),
    treatments := s1.treatments }

/-- `evaluate_blp`: the best-linear-predictor test.  `wls y x w` is the opaque
weighted OLS of `statsmodels` returning the slope's
(coefficient, HC1 standard error, p-value). -/
def evaluate_blp (s : DRTesterState) (Xval? Xtrain? : Option (List (List ℚ)))
    (sampleweightval? : Option (List ℚ))
    (wls : List ℚ → List ℚ → List ℚ → ℚ × ℚ × ℚ) :
    Except String (DRTesterState × BLPEvaluationResults) :=
  if s.dr_val_.isNone then .error "Must fit nuisances before evaluating"
  else
    let step : Except String DRTesterState :=
      if s.cate_preds_val_.isNone then
        match Xval? with
        | none => .error "CATE predictions not yet calculated - must provide Xval"
        | some xv => .ok (get_cate_preds s xv Xtrain?)
      else .ok s
    match step with
    | .error e => .error e
    | .ok s1 =>
      let cpv := s1.cate_preds_val_.getD ⟨[], []⟩
      let swv := sampleweightval?.getD (List.replicate (cpv.shape.headD 0) (1 : ℚ))
      let res := blp_results s1 swv wls
      .ok ({ s1 with blp_res := some res }, res)

/-- The default percentile grid `np.linspace(5, 95, 50)`. -/
def default_percentiles : List ℚ := (List.range 50).map (fun i : ℕ => 5 + (i : ℚ) * (90 / 49))

/-- The per-arm `calc_uplift` loop of `evaluate_uplift`, the two-sided p-values
`2·sf(|coeff/err|)`, and the construction of its `UpliftEvaluationResults`. -/
def uplift_results (s1 : DRTesterState) (percentiles : List ℚ) (metric : String)
    (n_bootstrap : ℕ) (swvI swtI : List ℤ)
    (cu : List ℚ → List ℚ → List ℚ → List ℚ → String → ℕ → List ℤ → List ℤ → ℚ × ℚ × List ℚ)
    (sf : ℚ → ℚ) : UpliftEvaluationResults :=
  let cpv := s1.cate_preds_val_.getD ⟨[], []⟩
  let cpt := s1.cate_preds_train_.getD ⟨[], []⟩
  let dv := s1.dr_val_.getD ⟨[], []⟩
  let arms := (List.range s1.n_treat).map (fun k =>
    cu (cpt.col k) (cpv.col k) (dv.col k) percentiles metric n_bootstrap swtI swvI)
  let coeffs := arms.map (fun a => a.1)
  let errs := arms.map (fun a => a.2.1)
  let pvals := (coeffs.zip errs).map (fun p => 2 * sf (|p.1 / p.2|))
  { params := coeffs, errs := errs, pvals := pvals,
    treatments := s1.treatments,
    curve_data_dict := s1.treatments.tail.zip (arms.map (fun a => a.2.2)) }

/-- `evaluate_uplift`: uplift curve and coefficient test.  `calc_uplift` (from
`econml/validate/utils.py`, not under `src/`, and randomized through its
bootstrap) is an opaque parameter `cu` returning (coefficient, bootstrap
standard error, curve); `sf` is the opaque standard normal survival function
`scipy.stats.norm.sf`. -/
def evaluate_uplift (s : DRTesterState) (Xval? Xtrain? : Option (List (List ℚ)))
    (percentiles : List ℚ) (metric : String) (n_bootstrap : ℕ)
    (sampleweightval? sampleweighttrain? : Option (List ℚ))
    (cu : List ℚ → List ℚ → List ℚ → List ℚ → String → ℕ → List ℤ → List ℤ → ℚ × ℚ × List ℚ)
    (sf : ℚ → ℚ) :
    Except String (DRTesterState × UpliftEvaluationResults) :=
  if s.dr_val_.isNone then .error "Must fit nuisances before evaluating"
  else
    let step : Except String DRTesterState :=
      if s.cate_preds_train_.isNone || s.cate_preds_val_.isNone then
        match Xval?, Xtrain? with
        | some xv, some xt => .ok (get_cate_preds s xv (some xt))
        | _, _ => .error "CATE predictions not yet calculated - must provide both Xval, Xtrain"
      else .ok s
    match step with
    | .error e => .error e
    | .ok s1 =>
      let cpv := s1.cate_preds_val_.getD ⟨[], []⟩
      let cpt := s1.cate_preds_train_.getD ⟨[], []⟩
      let swv := sampleweightval?.getD (List.replicate (cpv.shape.headD 0) (1 : ℚ))
      let swt := sampleweighttrain?.getD (List.replicate (cpt.shape.headD 0) (1 : ℚ))
      let swvI := toIntWeights swv
      let swtI := toIntWeights swt
      if !(weightsValid swvI) then .error "Sample weights must be integer and >= 1"
      else if !(weightsValid swtI) then .error "Sample weights must be integer and >= 1"
      else
        let res := uplift_results s1 percentiles metric n_bootstrap swvI swtI cu sf
        .ok ({ s1 with uplift_res := some res }, res)

/-- `evaluate_all`: checks CATE predictions, validates the weights itself, then
runs BLP, calibration, and both uplift variants on the (already truncated)
weights, combining the four results. -/
def evaluate_all (s : DRTesterState) (Xval? Xtrain? : Option (List (List ℚ)))
    (n_groups n_bootstrap : ℕ)
    (sampleweightval? sampleweighttrain? : Option (List ℚ))
    (wse : List ℚ → List ℤ → ℚ)
    (wls : List ℚ → List ℚ → List ℚ → ℚ × ℚ × ℚ)
    (cu : List ℚ → List ℚ → List ℚ → List ℚ → String → ℕ → List ℤ → List ℤ → ℚ × ℚ × List ℚ)
    (sf : ℚ → ℚ) :
    Except String (DRTesterState × EvaluationResults) :=
  let step : Except String DRTesterState :=
    if s.cate_preds_train_.isNone || s.cate_preds_val_.isNone then
      match Xval?, Xtrain? with
      | some xv, some xt => .ok (get_cate_preds s xv (some xt))
      | _, _ => .error "CATE predictions not yet calculated - must provide both Xval, Xtrain"
    else .ok s
  match step with
  | .error e => .error e
  | .ok s1 =>
    let cpv := s1.cate_preds_val_.getD ⟨[], []⟩
    let cpt := s1.cate_preds_train_.getD ⟨[], []⟩
    let swv := sampleweightval?.getD (List.replicate (cpv.shape.headD 0) (1 : ℚ))
    let swt := sampleweighttrain?.getD (List.replicate (cpt.shape.headD 0) (1 : ℚ))
    let swvI := toIntWeights swv
    let swtI := toIntWeights swt
    if !(weightsValid swvI) then .error "Sample weights must be integer and >= 1"
    else if !(weightsValid swtI) then .error "Sample weights must be integer and >= 1"
    else
      let swvQ := swvI.map (fun w => (w : ℚ))
      let swtQ := swtI.map (fun w => (w : ℚ))
      match evaluate_blp s1 Xval? Xtrain? (some swvQ) wls with
      | .error e => .error e
      | .ok (s2, blp) =>
        match evaluate_cal s2 Xval? Xtrain? n_groups (some swvQ) (some swtQ) wse with
        | .error e => .error e
        | .ok (s3, cal) =>
          match evaluate_uplift s3 Xval? Xtrain? default_percentiles "qini" n_bootstrap
              (some swvQ) (some swtQ) cu sf with
          | .error e => .error e
          | .ok (s4, qini) =>
            match evaluate_uplift s4 Xval? Xtrain? default_percentiles "toc" n_bootstrap
                (some swvQ) (some swtQ) cu sf with
            | .error e => .error e
            | .ok (s5, tocr) =>
              let r : EvaluationResults :=
                { blp_res := blp, cal_res := cal, qini_res := qini, toc_res := tocr }
              .ok ({ s5 with res := some r }, r)

/-- `true` exactly on a successful (`.ok`) result. -/
def okB {α : Type} (e : Except String α) : Bool :=
  match e with
  | .ok _ => true
  | .error _ => false

/-- The rational `3/2`, given in normal form so that it evaluates by `decide`. -/
def q32 : ℚ := Rat.mk' 3 2 (by decide) (by decide)

/-- The rational `1/2`, given in normal form so that it evaluates by `decide`. -/
def q12 : ℚ := Rat.mk' 1 2 (by decide) (by decide)

/-- A concrete CATE capability: on each unit it predicts the arm label. -/
def cateEx : List (List ℚ) → ℤ → ℤ → List ℚ := fun X _ t => X.map (fun _ => (t : ℚ))

/-- A state with three treatment values (two non-control arms). -/
def stateC7 : DRTesterState :=
  { initState cateEx with treatments := [0, 1, 2], n_treat := 2 }

/-- A concrete fitted state: two validation units, one non-control arm,
DR outcomes `[0, 2]`, CATE predictions `[0, 1]` on both samples. -/
def exampleState : DRTesterState :=
  { cate := fun _ _ _ => [], Dval := [0, 1], treatments := [0, 1], n_treat := 1,
    fit_on_train := true,
    dr_val_ := some ⟨[2, 1], [0, 2]⟩,
    dr_train_ := some ⟨[2, 1], [0, 2]⟩,
    ate_val := [0],
    cate_preds_val_ := some ⟨[2, 1], [0, 1]⟩,
    cate_preds_train_ := some ⟨[2, 1], [0, 1]⟩,
    cal_res := none, blp_res := none, uplift_res := none, res := none }

/-- A trivial stand-in for the opaque `weighted_se`. -/
def wse0 : List ℚ → List ℤ → ℚ := fun _ _ => 0

/-- A trivial stand-in for the opaque `statsmodels` WLS capability. -/
def wls0 : List ℚ → List ℚ → List ℚ → ℚ × ℚ × ℚ := fun _ _ _ => (1, 1, 0)

/-- A trivial stand-in for the opaque `calc_uplift`. -/
def cu0 : List ℚ → List ℚ → List ℚ → List ℚ → String → ℕ → List ℤ → List ℤ → ℚ × ℚ × List ℚ :=
  fun _ _ _ _ _ _ _ _ => (1, 1, [])

/-- A trivial stand-in for the opaque normal survival function. -/
def sf0 : ℚ → ℚ := fun _ => 1

/-- The concrete result of re-running `evaluate_cal` on `exampleState`. -/
def calRunEx : DRTesterState × CalibrationEvaluationResults :=
  (evaluate_cal exampleState none none 1 none none wse0).toOption.getD default

/-- The concrete result of re-running `evaluate_blp` on `exampleState`. -/
def blpRunEx : DRTesterState × BLPEvaluationResults :=
  (evaluate_blp exampleState none none none wls0).toOption.getD default

/-- The concrete result of re-running `evaluate_uplift` on `exampleState`. -/
def upliftRunEx : DRTesterState × UpliftEvaluationResults :=
  (evaluate_uplift exampleState none none default_percentiles "qini" 1000 none none
    cu0 sf0).toOption.getD default

-- ===================== theorems =====================

theorem getD_map_range {α : Type} (f : ℕ → α) (n i : ℕ) (d : α) (hi : i < n) :
    ((List.range n).map f).getD i d = f i := by
  have h1 : i < ((List.range n).map f).length := by simpa using hi
  rw [List.getD_eq_getElem _ _ h1, List.getElem_map, List.getElem_range]

theorem sortedUnique_sorted (l : List ℤ) : List.Sorted (· ≤ ·) (sortedUnique l) :=
  Finset.sort_sorted _ _

theorem sortedUnique_mem (l : List ℤ) (d : ℤ) : d ∈ sortedUnique l ↔ d ∈ l := by
  rw [sortedUnique, Finset.mem_sort, List.mem_toFinset]

theorem headD_le_of_sorted (l : List ℤ) (hs : List.Sorted (· ≤ ·) l) :
    ∀ d ∈ l, l.headD 0 ≤ d := by
  cases l with
  | nil => intro d hd; cases hd
  | cons x xs =>
    intro d hd
    rcases List.mem_cons.mp hd with h | h
    · subst h
      simp
    · exact (List.sorted_cons.mp hs).1 d h

/-- Claim C5: `evaluate_cal` after a `fit_nuisance` without training data, and
`evaluate_blp` / `evaluate_uplift` before any `fit_nuisance`, raise a fatal
exception with a descriptive message (no recovery is attempted: the error is
the call's immediate result). -/
theorem claim_C5_precondition_errors :
    (∀ (ce : List (List ℚ) → ℤ → ℤ → List ℚ) (Dval : List ℤ) (yval : List ℚ)
       (regV propV : NpArray) (swv? : Option (List ℚ))
       (Xv Xt : Option (List (List ℚ))) (nG : ℕ) (wv wt : Option (List ℚ))
       (wse : List ℚ → List ℤ → ℚ),
       evaluate_cal (fit_nuisance (initState ce) Dval yval none regV propV swv?) Xv Xt nG wv wt wse
         = .error "Must fit nuisance models on training sample data to use calibration test")
    ∧ (∀ (ce : List (List ℚ) → ℤ → ℤ → List ℚ) (Xv Xt : Option (List (List ℚ)))
         (wv : Option (List ℚ)) (wls : List ℚ → List ℚ → List ℚ → ℚ × ℚ × ℚ),
         evaluate_blp (initState ce) Xv Xt wv wls = .error "Must fit nuisances before evaluating")
    ∧ (∀ (ce : List (List ℚ) → ℤ → ℤ → List ℚ) (Xv Xt : Option (List (List ℚ)))
         (perc : List ℚ) (metric : String) (nB : ℕ) (wv wt : Option (List ℚ))
         (cu : List ℚ → List ℚ → List ℚ → List ℚ → String → ℕ → List ℤ → List ℤ → ℚ × ℚ × List ℚ)
         (sf : ℚ → ℚ),
         evaluate_uplift (initState ce) Xv Xt perc metric nB wv wt cu sf
           = .error "Must fit nuisances before evaluating") := by
  refine ⟨?_, ?_, ?_⟩
  · intro ce Dval yval regV propV swv? Xv Xt nG wv wt wse
    rfl
  · intro ce Xv Xt wv wls
    rfl
  · intro ce Xv Xt perc metric nB wv wt cu sf
    rfl

/-- Claim C6: `fit_nuisance` sets `treatments` to the sorted distinct values of
`Dval` (so the control arm `treatments[0]` is the minimum value occurring in
`Dval`) and `n_treat` to the number of distinct values minus one. -/
theorem claim_C6_treatments (s : DRTesterState) (Dval : List ℤ) (yval : List ℚ)
    (train? : Option (List ℤ × List ℚ × NpArray × NpArray))
    (regV propV : NpArray) (swv? : Option (List ℚ))
    (hne : Dval ≠ []) :
    List.Sorted (· ≤ ·) (fit_nuisance s Dval yval train? regV propV swv?).treatments
    ∧ (fit_nuisance s Dval yval train? regV propV swv?).treatments.Nodup
    ∧ (∀ d : ℤ, d ∈ (fit_nuisance s Dval yval train? regV propV swv?).treatments ↔ d ∈ Dval)
    ∧ (fit_nuisance s Dval yval train? regV propV swv?).treatments.headD 0 ∈ Dval
    ∧ (∀ d ∈ Dval, (fit_nuisance s Dval yval train? regV propV swv?).treatments.headD 0 ≤ d)
    ∧ (fit_nuisance s Dval yval train? regV propV swv?).n_treat = Dval.toFinset.card - 1 := by
  have htr : (fit_nuisance s Dval yval train? regV propV swv?).treatments = sortedUnique Dval := by
    rcases train? with _ | ⟨dt, yt, rT, pT⟩ <;> rfl
  have hnt : (fit_nuisance s Dval yval train? regV propV swv?).n_treat
      = (sortedUnique Dval).length - 1 := by
    rcases train? with _ | ⟨dt, yt, rT, pT⟩ <;> rfl
  rw [htr, hnt]
  have hsorted := sortedUnique_sorted Dval
  have hmem := sortedUnique_mem Dval
  have hhead : (sortedUnique Dval).headD 0 ∈ Dval := by
    have hnil : sortedUnique Dval ≠ [] := by
      intro habs
      rcases List.exists_mem_of_ne_nil Dval hne with ⟨d, hd⟩
      have := (hmem d).mpr hd
      rw [habs] at this
      cases this
    rcases List.exists_cons_of_ne_nil hnil with ⟨x, xs, hx⟩
    apply (hmem _).mp
    rw [hx]
    simp
  refine ⟨hsorted, Finset.sort_nodup _ _, hmem, hhead, ?_, ?_⟩
  · intro d hd
    exact headD_le_of_sorted _ hsorted d ((hmem d).mpr hd)
  · rw [sortedUnique, Finset.length_sort]

/-- Claim C6 witness at `Dval = [3, 1, 1]`. -/
theorem claim_C6_witness :
    ([3, 1, 1] : List ℤ) ≠ []
    ∧ (List.Sorted (· ≤ ·) (fit_nuisance (initState cateEx) [3, 1, 1] [0, 0, 0] none ⟨[], []⟩ ⟨[], []⟩ none).treatments
      ∧ (fit_nuisance (initState cateEx) [3, 1, 1] [0, 0, 0] none ⟨[], []⟩ ⟨[], []⟩ none).treatments.Nodup
      ∧ (∀ d : ℤ, d ∈ (fit_nuisance (initState cateEx) [3, 1, 1] [0, 0, 0] none ⟨[], []⟩ ⟨[], []⟩ none).treatments ↔ d ∈ ([3, 1, 1] : List ℤ))
      ∧ (fit_nuisance (initState cateEx) [3, 1, 1] [0, 0, 0] none ⟨[], []⟩ ⟨[], []⟩ none).treatments.headD 0 ∈ ([3, 1, 1] : List ℤ)
      ∧ (∀ d ∈ ([3, 1, 1] : List ℤ), (fit_nuisance (initState cateEx) [3, 1, 1] [0, 0, 0] none ⟨[], []⟩ ⟨[], []⟩ none).treatments.headD 0 ≤ d)
      ∧ (fit_nuisance (initState cateEx) [3, 1, 1] [0, 0, 0] none ⟨[], []⟩ ⟨[], []⟩ none).n_treat = ([3, 1, 1] : List ℤ).toFinset.card - 1) :=
  ⟨by decide, claim_C6_treatments (initState cateEx) [3, 1, 1] [0, 0, 0] none ⟨[], []⟩ ⟨[], []⟩ none (by decide)⟩

/-- Claim C7: refuted on the code (code bug).  On a validation sample with a
single unit and two non-control arms, `get_cate_preds` produces
`cate_preds_val_` of shape `(2, 1)` — `squeeze` removes the unit axis and the
trailing-axis restoration transposes the matrix — instead of the 2-D
`(n_val, n_treat) = (1, 2)` required by the claim. -/
theorem claim_C7_squeeze_shape_bug :
    ((get_cate_preds stateC7 [[1]] none).cate_preds_val_.getD ⟨[], []⟩).shape = [2, 1]
    ∧ ([2, 1] : List ℕ) ≠ [1, 2] := by
  constructor
  · rfl
  · decide

theorem truncQ_intCast (n : ℤ) : truncQ ((n : ℤ) : ℚ) = n := by
  rw [truncQ, Rat.num_intCast, Rat.den_intCast]
  simp

theorem toIntWeights_trunc (ws : List ℚ) :
    toIntWeights (ws.map (fun w => ((truncQ w : ℤ) : ℚ))) = toIntWeights ws := by
  rw [toIntWeights, toIntWeights, List.map_map]
  apply List.map_congr_left
  intro a _
  simp only [Function.comp]
  exact truncQ_intCast (truncQ a)

theorem truncQ_eq_floor {w : ℚ} (h : 1 ≤ w) : truncQ w = ⌊w⌋ := by
  have h0 : 0 ≤ w.num := by
    rw [Rat.num_nonneg]
    linarith
  rw [truncQ, Int.tdiv_eq_ediv h0 (by positivity), Rat.floor_def]

theorem badWeights_false {ws : List ℚ} (h : ∃ w ∈ ws, truncQ w < 1) :
    weightsValid (toIntWeights ws) = false := by
  obtain ⟨w, hw, hlt⟩ := h
  rw [weightsValid, List.all_eq_false]
  refine ⟨truncQ w, List.mem_map_of_mem _ hw, ?_⟩
  simpa using not_le.mpr hlt

theorem evaluate_cal_ok (s : DRTesterState) (Xv Xt : Option (List (List ℚ))) (nG : ℕ)
    (swv? swt? : Option (List ℚ)) (wse : List ℚ → List ℤ → ℚ)
    (dt cpv cpt : NpArray)
    (hdt : s.dr_train_ = some dt) (hv : s.cate_preds_val_ = some cpv)
    (ht : s.cate_preds_train_ = some cpt)
    (hwv : weightsValid (toIntWeights (swv?.getD (List.replicate (cpv.shape.headD 0) (1 : ℚ)))) = true)
    (hwt : weightsValid (toIntWeights (swt?.getD (List.replicate (cpt.shape.headD 0) (1 : ℚ)))) = true) :
    evaluate_cal s Xv Xt nG swv? swt? wse
      = .ok ({ s with cal_res := some (cal_results s nG
                (toIntWeights (swv?.getD (List.replicate (cpv.shape.headD 0) (1 : ℚ))))
                (toIntWeights (swt?.getD (List.replicate (cpt.shape.headD 0) (1 : ℚ)))) wse) },
             cal_results s nG
                (toIntWeights (swv?.getD (List.replicate (cpv.shape.headD 0) (1 : ℚ))))
                (toIntWeights (swt?.getD (List.replicate (cpt.shape.headD 0) (1 : ℚ)))) wse) := by
  simp only [evaluate_cal, hdt, hv, ht, Option.isNone_some, Bool.or_self, Option.getD_some,
    hwv, hwt, Bool.not_true, Bool.false_eq_true, if_false]

theorem evaluate_cal_err_weights (s : DRTesterState) (Xv Xt : Option (List (List ℚ))) (nG : ℕ)
    (swv? swt? : Option (List ℚ)) (wse : List ℚ → List ℤ → ℚ)
    (dt cpv cpt : NpArray)
    (hdt : s.dr_train_ = some dt) (hv : s.cate_preds_val_ = some cpv)
    (ht : s.cate_preds_train_ = some cpt)
    (hbad : weightsValid (toIntWeights (swv?.getD (List.replicate (cpv.shape.headD 0) (1 : ℚ)))) = false
          ∨ weightsValid (toIntWeights (swt?.getD (List.replicate (cpt.shape.headD 0) (1 : ℚ)))) = false) :
    evaluate_cal s Xv Xt nG swv? swt? wse
      = .error "Sample weights must be integer and >= 1" := by
  rcases hbad with hb | hb
  · simp only [evaluate_cal, hdt, hv, ht, Option.isNone_some, Bool.or_self, Option.getD_some,
      hb, Bool.not_false, Bool.not_true, Bool.false_eq_true, if_false, if_true]
  · cases hval : weightsValid (toIntWeights (swv?.getD (List.replicate (cpv.shape.headD 0) (1 : ℚ)))) with
    | false =>
      simp only [evaluate_cal, hdt, hv, ht, Option.isNone_some, Bool.or_self, Option.getD_some,
        hval, Bool.not_false, Bool.not_true, Bool.false_eq_true, if_false, if_true]
    | true =>
      simp only [evaluate_cal, hdt, hv, ht, Option.isNone_some, Bool.or_self, Option.getD_some,
        hval, hb, Bool.not_true, Bool.not_false, Bool.false_eq_true, if_false, if_true]

theorem evaluate_uplift_ok (s : DRTesterState) (Xv Xt : Option (List (List ℚ)))
    (perc : List ℚ) (metric : String) (nB : ℕ)
    (swv? swt? : Option (List ℚ))
    (cu : List ℚ → List ℚ → List ℚ → List ℚ → String → ℕ → List ℤ → List ℤ → ℚ × ℚ × List ℚ)
    (sf : ℚ → ℚ) (dv cpv cpt : NpArray)
    (hdv : s.dr_val_ = some dv) (hv : s.cate_preds_val_ = some cpv)
    (ht : s.cate_preds_train_ = some cpt)
    (hwv : weightsValid (toIntWeights (swv?.getD (List.replicate (cpv.shape.headD 0) (1 : ℚ)))) = true)
    (hwt : weightsValid (toIntWeights (swt?.getD (List.replicate (cpt.shape.headD 0) (1 : ℚ)))) = true) :
    evaluate_uplift s Xv Xt perc metric nB swv? swt? cu sf
      = .ok ({ s with uplift_res := some (uplift_results s perc metric nB
                (toIntWeights (swv?.getD (List.replicate (cpv.shape.headD 0) (1 : ℚ))))
                (toIntWeights (swt?.getD (List.replicate (cpt.shape.headD 0) (1 : ℚ)))) cu sf) },
             uplift_results s perc metric nB
                (toIntWeights (swv?.getD (List.replicate (cpv.shape.headD 0) (1 : ℚ))))
                (toIntWeights (swt?.getD (List.replicate (cpt.shape.headD 0) (1 : ℚ)))) cu sf) := by
  simp only [evaluate_uplift, hdv, hv, ht, Option.isNone_some, Bool.or_self, Option.getD_some,
    hwv, hwt, Bool.not_true, Bool.false_eq_true, if_false]

theorem evaluate_uplift_err_weights (s : DRTesterState) (Xv Xt : Option (List (List ℚ)))
    (perc : List ℚ) (metric : String) (nB : ℕ)
    (swv? swt? : Option (List ℚ))
    (cu : List ℚ → List ℚ → List ℚ → List ℚ → String → ℕ → List ℤ → List ℤ → ℚ × ℚ × List ℚ)
    (sf : ℚ → ℚ) (dv cpv cpt : NpArray)
    (hdv : s.dr_val_ = some dv) (hv : s.cate_preds_val_ = some cpv)
    (ht : s.cate_preds_train_ = some cpt)
    (hbad : weightsValid (toIntWeights (swv?.getD (List.replicate (cpv.shape.headD 0) (1 : ℚ)))) = false
          ∨ weightsValid (toIntWeights (swt?.getD (List.replicate (cpt.shape.headD 0) (1 : ℚ)))) = false) :
    evaluate_uplift s Xv Xt perc metric nB swv? swt? cu sf
      = .error "Sample weights must be integer and >= 1" := by
  rcases hbad with hb | hb
  · simp only [evaluate_uplift, hdv, hv, ht, Option.isNone_some, Bool.or_self, Option.getD_some,
      hb, Bool.not_false, Bool.not_true, Bool.false_eq_true, if_false, if_true]
  · cases hval : weightsValid (toIntWeights (swv?.getD (List.replicate (cpv.shape.headD 0) (1 : ℚ)))) with
    | false =>
      simp only [evaluate_uplift, hdv, hv, ht, Option.isNone_some, Bool.or_self, Option.getD_some,
        hval, Bool.not_false, Bool.not_true, Bool.false_eq_true, if_false, if_true]
    | true =>
      simp only [evaluate_uplift, hdv, hv, ht, Option.isNone_some, Bool.or_self, Option.getD_some,
        hval, hb, Bool.not_true, Bool.not_false, Bool.false_eq_true, if_false, if_true]

theorem evaluate_blp_ok (s : DRTesterState) (Xv Xt : Option (List (List ℚ)))
    (swv? : Option (List ℚ)) (wls : List ℚ → List ℚ → List ℚ → ℚ × ℚ × ℚ)
    (dv cpv : NpArray)
    (hdv : s.dr_val_ = some dv) (hv : s.cate_preds_val_ = some cpv) :
    evaluate_blp s Xv Xt swv? wls
      = .ok ({ s with blp_res := some (blp_results s
                (swv?.getD (List.replicate (cpv.shape.headD 0) (1 : ℚ))) wls) },
             blp_results s (swv?.getD (List.replicate (cpv.shape.headD 0) (1 : ℚ))) wls) := by
  simp only [evaluate_blp, hdv, hv, Option.isNone_some, Option.getD_some, Bool.false_eq_true,
    if_false]

theorem evaluate_all_err_weights (s : DRTesterState) (Xv Xt : Option (List (List ℚ)))
    (nG nB : ℕ) (swv? swt? : Option (List ℚ))
    (wse : List ℚ → List ℤ → ℚ) (wls : List ℚ → List ℚ → List ℚ → ℚ × ℚ × ℚ)
    (cu : List ℚ → List ℚ → List ℚ → List ℚ → String → ℕ → List ℤ → List ℤ → ℚ × ℚ × List ℚ)
    (sf : ℚ → ℚ) (cpv cpt : NpArray)
    (hv : s.cate_preds_val_ = some cpv) (ht : s.cate_preds_train_ = some cpt)
    (hbad : weightsValid (toIntWeights (swv?.getD (List.replicate (cpv.shape.headD 0) (1 : ℚ)))) = false
          ∨ weightsValid (toIntWeights (swt?.getD (List.replicate (cpt.shape.headD 0) (1 : ℚ)))) = false) :
    evaluate_all s Xv Xt nG nB swv? swt? wse wls cu sf
      = .error "Sample weights must be integer and >= 1" := by
  rcases hbad with hb | hb
  · simp only [evaluate_all, hv, ht, Option.isNone_some, Bool.or_self, Option.getD_some,
      hb, Bool.not_false, Bool.not_true, Bool.false_eq_true, if_false, if_true]
  · cases hval : weightsValid (toIntWeights (swv?.getD (List.replicate (cpv.shape.headD 0) (1 : ℚ)))) with
    | false =>
      simp only [evaluate_all, hv, ht, Option.isNone_some, Bool.or_self, Option.getD_some,
        hval, Bool.not_false, Bool.not_true, Bool.false_eq_true, if_false, if_true]
    | true =>
      simp only [evaluate_all, hv, ht, Option.isNone_some, Bool.or_self, Option.getD_some,
        hval, hb, Bool.not_true, Bool.not_false, Bool.false_eq_true, if_false, if_true]

/-- Claim C2: refuted on the code.  The weight `3/2` is non-integer, yet
`evaluate_cal` and `evaluate_uplift` succeed on it: `astype(int)` truncates the
weights to integers before the `>= 1` assertion is checked, so a non-integer
weight `>= 1` never trips the assertion. -/
theorem claim_C2_counterexample :
    q32 = 3 / 2
    ∧ q32.den ≠ 1
    ∧ okB (evaluate_cal exampleState none none 4 (some [q32, q32]) none wse0) = true
    ∧ okB (evaluate_uplift exampleState none none default_percentiles "qini" 1000
        (some [q32, q32]) none cu0 sf0) = true := by
  refine ⟨?_, by decide, by decide, by decide⟩
  rw [show q32 = Rat.mk' 3 2 (by decide) (by decide) from rfl, Rat.mk'_eq_divInt,
    Rat.divInt_eq_div]
  norm_num

/-- Claim C2 (amended): a call to `evaluate_cal` or `evaluate_uplift` with an
explicitly provided sample-weight vector (validation or training) containing
an entry whose truncation toward zero is below 1 (in particular any entry
below 1) fails with the fatal weight assertion before any test statistic is
computed; non-integer entries whose truncation is at least 1 do not trigger
the assertion. -/
theorem claim_C2_amended_weight_assert (s : DRTesterState) (Xv Xt : Option (List (List ℚ)))
    (nG : ℕ) (perc : List ℚ) (metric : String) (nB : ℕ)
    (swv swt : List ℚ) (wse : List ℚ → List ℤ → ℚ)
    (cu : List ℚ → List ℚ → List ℚ → List ℚ → String → ℕ → List ℤ → List ℤ → ℚ × ℚ × List ℚ)
    (sf : ℚ → ℚ) (dt dv cpv cpt : NpArray)
    (hdt : s.dr_train_ = some dt) (hdv : s.dr_val_ = some dv)
    (hv : s.cate_preds_val_ = some cpv) (ht : s.cate_preds_train_ = some cpt)
    (hbad : (∃ w ∈ swv, truncQ w < 1) ∨ (∃ w ∈ swt, truncQ w < 1)) :
    evaluate_cal s Xv Xt nG (some swv) (some swt) wse
      = .error "Sample weights must be integer and >= 1"
    ∧ evaluate_uplift s Xv Xt perc metric nB (some swv) (some swt) cu sf
      = .error "Sample weights must be integer and >= 1" := by
  have hv' : (some swv).getD (List.replicate (cpv.shape.headD 0) (1 : ℚ)) = swv := rfl
  have ht' : (some swt).getD (List.replicate (cpt.shape.headD 0) (1 : ℚ)) = swt := rfl
  have hbad' :
      weightsValid (toIntWeights ((some swv).getD (List.replicate (cpv.shape.headD 0) (1 : ℚ)))) = false
      ∨ weightsValid (toIntWeights ((some swt).getD (List.replicate (cpt.shape.headD 0) (1 : ℚ)))) = false := by
    rw [hv', ht']
    rcases hbad with h | h
    · exact Or.inl (badWeights_false h)
    · exact Or.inr (badWeights_false h)
  exact ⟨evaluate_cal_err_weights s Xv Xt nG (some swv) (some swt) wse dt cpv cpt hdt hv ht hbad',
         evaluate_uplift_err_weights s Xv Xt perc metric nB (some swv) (some swt) cu sf dv cpv cpt
           hdv hv ht hbad'⟩

/-- Claim C2 (amended) witness at weight vector `[1/2]`. -/
theorem claim_C2_witness :
    (exampleState.dr_train_ = some ⟨[2, 1], [0, 2]⟩)
    ∧ (exampleState.dr_val_ = some ⟨[2, 1], [0, 2]⟩)
    ∧ (exampleState.cate_preds_val_ = some ⟨[2, 1], [0, 1]⟩)
    ∧ (exampleState.cate_preds_train_ = some ⟨[2, 1], [0, 1]⟩)
    ∧ ((∃ w ∈ [q12], truncQ w < 1) ∨ (∃ w ∈ ([1] : List ℚ), truncQ w < 1))
    ∧ (evaluate_cal exampleState none none 4 (some [q12]) (some [1]) wse0
        = .error "Sample weights must be integer and >= 1"
      ∧ evaluate_uplift exampleState none none default_percentiles "qini" 1000
          (some [q12]) (some [1]) cu0 sf0
        = .error "Sample weights must be integer and >= 1") :=
  ⟨rfl, rfl, rfl, rfl, by decide,
   claim_C2_amended_weight_assert exampleState none none 4 default_percentiles "qini" 1000
     [q12] [1] wse0 cu0 sf0 ⟨[2, 1], [0, 2]⟩ ⟨[2, 1], [0, 2]⟩ ⟨[2, 1], [0, 1]⟩ ⟨[2, 1], [0, 1]⟩
     rfl rfl rfl rfl (by decide)⟩

/-- Claim C10: in `evaluate_cal`, `evaluate_uplift` and `evaluate_all`, every
explicitly provided sample-weight vector is coerced element-wise to integers
by truncation toward zero before validity is checked: any weight `w ≥ 1` is
replaced by `⌊w⌋` (truncating the weights changes nothing, so e.g. `1.5` is
silently treated as `1`), while a vector containing a weight whose truncation
is below 1 triggers the fatal assertion. -/
theorem claim_C10_weight_truncation (s : DRTesterState) (Xv Xt : Option (List (List ℚ)))
    (nG : ℕ) (perc : List ℚ) (metric : String) (nB : ℕ)
    (swv swt swvBad : List ℚ) (wse : List ℚ → List ℤ → ℚ)
    (wls : List ℚ → List ℚ → List ℚ → ℚ × ℚ × ℚ)
    (cu : List ℚ → List ℚ → List ℚ → List ℚ → String → ℕ → List ℤ → List ℤ → ℚ × ℚ × List ℚ)
    (sf : ℚ → ℚ) (dt dv cpv cpt : NpArray)
    (hdt : s.dr_train_ = some dt) (hdv : s.dr_val_ = some dv)
    (hv : s.cate_preds_val_ = some cpv) (ht : s.cate_preds_train_ = some cpt)
    (hbad : ∃ w ∈ swvBad, truncQ w < 1) :
    (∀ w : ℚ, 1 ≤ w → truncQ w = ⌊w⌋)
    ∧ evaluate_cal s Xv Xt nG (some swv) (some swt) wse
        = evaluate_cal s Xv Xt nG (some (swv.map (fun w => ((truncQ w : ℤ) : ℚ))))
            (some (swt.map (fun w => ((truncQ w : ℤ) : ℚ)))) wse
    ∧ evaluate_uplift s Xv Xt perc metric nB (some swv) (some swt) cu sf
        = evaluate_uplift s Xv Xt perc metric nB (some (swv.map (fun w => ((truncQ w : ℤ) : ℚ))))
            (some (swt.map (fun w => ((truncQ w : ℤ) : ℚ)))) cu sf
    ∧ evaluate_all s Xv Xt nG nB (some swv) (some swt) wse wls cu sf
        = evaluate_all s Xv Xt nG nB (some (swv.map (fun w => ((truncQ w : ℤ) : ℚ))))
            (some (swt.map (fun w => ((truncQ w : ℤ) : ℚ)))) wse wls cu sf
    ∧ evaluate_cal s Xv Xt nG (some swvBad) (some swt) wse
        = .error "Sample weights must be integer and >= 1"
    ∧ evaluate_uplift s Xv Xt perc metric nB (some swvBad) (some swt) cu sf
        = .error "Sample weights must be integer and >= 1"
    ∧ evaluate_all s Xv Xt nG nB (some swvBad) (some swt) wse wls cu sf
        = .error "Sample weights must be integer and >= 1" := by
  have hbad' :
      weightsValid (toIntWeights ((some swvBad).getD (List.replicate (cpv.shape.headD 0) (1 : ℚ)))) = false
      ∨ weightsValid (toIntWeights ((some swt).getD (List.replicate (cpt.shape.headD 0) (1 : ℚ)))) = false :=
    Or.inl (badWeights_false hbad)
  refine ⟨fun w hw => truncQ_eq_floor hw, ?_, ?_, ?_, ?_, ?_, ?_⟩
  · simp only [evaluate_cal, Option.getD_some, toIntWeights_trunc]
  · simp only [evaluate_uplift, Option.getD_some, toIntWeights_trunc]
  · simp only [evaluate_all, Option.getD_some, toIntWeights_trunc]
  · exact evaluate_cal_err_weights s Xv Xt nG (some swvBad) (some swt) wse dt cpv cpt hdt hv ht hbad'
  · exact evaluate_uplift_err_weights s Xv Xt perc metric nB (some swvBad) (some swt) cu sf
      dv cpv cpt hdv hv ht hbad'
  · exact evaluate_all_err_weights s Xv Xt nG nB (some swvBad) (some swt) wse wls cu sf
      cpv cpt hv ht hbad'

/-- Claim C10 witness at weight vectors `[3/2, 3/2]` (truncation-invariance)
and `[1/2]` (assertion failure). -/
theorem claim_C10_witness :
    (exampleState.dr_train_ = some ⟨[2, 1], [0, 2]⟩)
    ∧ (exampleState.dr_val_ = some ⟨[2, 1], [0, 2]⟩)
    ∧ (exampleState.cate_preds_val_ = some ⟨[2, 1], [0, 1]⟩)
    ∧ (exampleState.cate_preds_train_ = some ⟨[2, 1], [0, 1]⟩)
    ∧ (∃ w ∈ [q12], truncQ w < 1)
    ∧ ((∀ w : ℚ, 1 ≤ w → truncQ w = ⌊w⌋)
      ∧ evaluate_cal exampleState none none 4 (some [q32, q32]) (some [1, 1]) wse0
          = evaluate_cal exampleState none none 4 (some ([q32, q32].map (fun w => ((truncQ w : ℤ) : ℚ))))
              (some ([(1 : ℚ), 1].map (fun w => ((truncQ w : ℤ) : ℚ)))) wse0
      ∧ evaluate_uplift exampleState none none default_percentiles "qini" 1000
            (some [q32, q32]) (some [1, 1]) cu0 sf0
          = evaluate_uplift exampleState none none default_percentiles "qini" 1000
              (some ([q32, q32].map (fun w => ((truncQ w : ℤ) : ℚ))))
              (some ([(1 : ℚ), 1].map (fun w => ((truncQ w : ℤ) : ℚ)))) cu0 sf0
      ∧ evaluate_all exampleState none none 4 1000 (some [q32, q32]) (some [1, 1]) wse0 wls0 cu0 sf0
          = evaluate_all exampleState none none 4 1000
              (some ([q32, q32].map (fun w => ((truncQ w : ℤ) : ℚ))))
              (some ([(1 : ℚ), 1].map (fun w => ((truncQ w : ℤ) : ℚ)))) wse0 wls0 cu0 sf0
      ∧ evaluate_cal exampleState none none 4 (some [q12]) (some [1, 1]) wse0
          = .error "Sample weights must be integer and >= 1"
      ∧ evaluate_uplift exampleState none none default_percentiles "qini" 1000
            (some [q12]) (some [1, 1]) cu0 sf0
          = .error "Sample weights must be integer and >= 1"
      ∧ evaluate_all exampleState none none 4 1000 (some [q12]) (some [1, 1]) wse0 wls0 cu0 sf0
          = .error "Sample weights must be integer and >= 1") :=
  ⟨rfl, rfl, rfl, rfl, by decide,
   claim_C10_weight_truncation exampleState none none 4 default_percentiles "qini" 1000
     [q32, q32] [1, 1] [q12] wse0 wls0 cu0 sf0
     ⟨[2, 1], [0, 2]⟩ ⟨[2, 1], [0, 2]⟩ ⟨[2, 1], [0, 1]⟩ ⟨[2, 1], [0, 1]⟩
     rfl rfl rfl rfl (by decide)⟩

theorem pvals_eq (arms : List (ℚ × ℚ × List ℚ)) (sf : ℚ → ℚ) (k : ℕ)
    (hk : k < arms.length)
    (he : 0 ≤ (arms.map (fun a => a.2.1)).getD k 0) :
    (((arms.map (fun a => a.1)).zip (arms.map (fun a => a.2.1))).map
        (fun p => 2 * sf (|p.1 / p.2|))).getD k 0
      = 2 * sf (|(arms.map (fun a => a.1)).getD k 0| / (arms.map (fun a => a.2.1)).getD k 0) := by
  have hk1 : k < (arms.map (fun a => a.1)).length := by simpa using hk
  have hk2 : k < (arms.map (fun a => a.2.1)).length := by simpa using hk
  rw [List.getD_eq_getElem _ _ hk2, List.getElem_map] at he
  rw [List.zip_map', List.map_map]
  have hk3 : k < (arms.map ((fun p : ℚ × ℚ => 2 * sf (|p.1 / p.2|)) ∘ fun a => (a.1, a.2.1))).length := by
    simpa using hk
  rw [List.getD_eq_getElem _ _ hk3, List.getElem_map,
    List.getD_eq_getElem _ _ hk1, List.getElem_map,
    List.getD_eq_getElem _ _ hk2, List.getElem_map]
  simp only [Function.comp]
  rw [abs_div, abs_of_nonneg he]

theorem uplift_results_pval (s1 : DRTesterState) (perc : List ℚ) (metric : String) (nB : ℕ)
    (swvI swtI : List ℤ)
    (cu : List ℚ → List ℚ → List ℚ → List ℚ → String → ℕ → List ℤ → List ℤ → ℚ × ℚ × List ℚ)
    (sf : ℚ → ℚ) (k : ℕ)
    (hk : k < (uplift_results s1 perc metric nB swvI swtI cu sf).params.length)
    (he : 0 ≤ (uplift_results s1 perc metric nB swvI swtI cu sf).errs.getD k 0) :
    (uplift_results s1 perc metric nB swvI swtI cu sf).pvals.getD k 0
      = 2 * sf (|(uplift_results s1 perc metric nB swvI swtI cu sf).params.getD k 0|
                 / (uplift_results s1 perc metric nB swvI swtI cu sf).errs.getD k 0) := by
  simp only [uplift_results] at hk he ⊢
  exact pvals_eq _ sf k (by simpa using hk) he

theorem evaluate_uplift_ok_shape (s : DRTesterState) (Xv Xt : Option (List (List ℚ)))
    (perc : List ℚ) (metric : String) (nB : ℕ) (swv? swt? : Option (List ℚ))
    (cu : List ℚ → List ℚ → List ℚ → List ℚ → String → ℕ → List ℤ → List ℤ → ℚ × ℚ × List ℚ)
    (sf : ℚ → ℚ) (s₂ : DRTesterState) (r : UpliftEvaluationResults)
    (hok : evaluate_uplift s Xv Xt perc metric nB swv? swt? cu sf = .ok (s₂, r)) :
    ∃ s1 swvI swtI, r = uplift_results s1 perc metric nB swvI swtI cu sf := by
  simp only [evaluate_uplift] at hok
  split at hok
  · simp at hok
  · split at hok
    · simp at hok
    · split at hok
      · simp at hok
      · split at hok
        · simp at hok
        · rw [Except.ok.injEq, Prod.mk.injEq] at hok
          exact ⟨_, _, _, hok.2.symm⟩

/-- Claim C8: in `evaluate_uplift`, for every arm the reported two-sided
p-value equals twice the standard normal survival function at the absolute
value of the uplift coefficient divided by its bootstrap standard error. -/
theorem claim_C8_uplift_pvalue (s : DRTesterState) (Xv Xt : Option (List (List ℚ)))
    (perc : List ℚ) (metric : String) (nB : ℕ) (swv? swt? : Option (List ℚ))
    (cu : List ℚ → List ℚ → List ℚ → List ℚ → String → ℕ → List ℤ → List ℤ → ℚ × ℚ × List ℚ)
    (sf : ℚ → ℚ) (s₂ : DRTesterState) (r : UpliftEvaluationResults) (k : ℕ)
    (hok : evaluate_uplift s Xv Xt perc metric nB swv? swt? cu sf = .ok (s₂, r))
    (hk : k < r.params.length) (he : 0 ≤ r.errs.getD k 0) :
    r.pvals.getD k 0 = 2 * sf (|r.params.getD k 0| / r.errs.getD k 0) := by
  obtain ⟨s1, swvI, swtI, hr⟩ :=
    evaluate_uplift_ok_shape s Xv Xt perc metric nB swv? swt? cu sf s₂ r hok
  subst hr
  exact uplift_results_pval s1 perc metric nB swvI swtI cu sf k hk he

/-- Claim C8 witness on a concrete uplift run. -/
theorem claim_C8_witness :
    (evaluate_uplift exampleState none none default_percentiles "qini" 1000 none none cu0 sf0
       = .ok (upliftRunEx.1, upliftRunEx.2))
    ∧ (0 < upliftRunEx.2.params.length)
    ∧ (0 ≤ upliftRunEx.2.errs.getD 0 0)
    ∧ (upliftRunEx.2.pvals.getD 0 0
        = 2 * sf0 (|upliftRunEx.2.params.getD 0 0| / upliftRunEx.2.errs.getD 0 0)) :=
  ⟨rfl, by decide, by decide,
   claim_C8_uplift_pvalue exampleState none none default_percentiles "qini" 1000 none none
     cu0 sf0 upliftRunEx.1 upliftRunEx.2 0 rfl (by decide) (by decide)⟩

/-- Claim C9: re-running one of `evaluate_blp`, `evaluate_cal`,
`evaluate_uplift` (CATE predictions already cached, as after a previous run)
overwrites only that test's own cached result attribute; all fitted state
(`treatments`, `n_treat`, `dr_val_`, `dr_train_`, `ate_val`, cached CATE
predictions, `Dval`, the capability and flags) and the other tests' cached
results are unchanged. -/
theorem claim_C9_result_overwrite (s : DRTesterState) (Xv Xt : Option (List (List ℚ)))
    (nG : ℕ) (perc : List ℚ) (metric : String) (nB : ℕ)
    (swv? swt? : Option (List ℚ)) (wse : List ℚ → List ℤ → ℚ)
    (wls : List ℚ → List ℚ → List ℚ → ℚ × ℚ × ℚ)
    (cu : List ℚ → List ℚ → List ℚ → List ℚ → String → ℕ → List ℤ → List ℤ → ℚ × ℚ × List ℚ)
    (sf : ℚ → ℚ) (cpv cpt : NpArray)
    (hv : s.cate_preds_val_ = some cpv) (ht : s.cate_preds_train_ = some cpt) :
    (∀ s₂ r, evaluate_cal s Xv Xt nG swv? swt? wse = .ok (s₂, r) →
       s₂.cate = s.cate ∧ s₂.Dval = s.Dval ∧ s₂.treatments = s.treatments
       ∧ s₂.n_treat = s.n_treat ∧ s₂.fit_on_train = s.fit_on_train
       ∧ s₂.dr_val_ = s.dr_val_ ∧ s₂.dr_train_ = s.dr_train_ ∧ s₂.ate_val = s.ate_val
       ∧ s₂.cate_preds_val_ = s.cate_preds_val_ ∧ s₂.cate_preds_train_ = s.cate_preds_train_
       ∧ s₂.blp_res = s.blp_res ∧ s₂.uplift_res = s.uplift_res ∧ s₂.res = s.res
       ∧ s₂.cal_res = some r)
    ∧ (∀ s₂ r, evaluate_blp s Xv Xt swv? wls = .ok (s₂, r) →
       s₂.cate = s.cate ∧ s₂.Dval = s.Dval ∧ s₂.treatments = s.treatments
       ∧ s₂.n_treat = s.n_treat ∧ s₂.fit_on_train = s.fit_on_train
       ∧ s₂.dr_val_ = s.dr_val_ ∧ s₂.dr_train_ = s.dr_train_ ∧ s₂.ate_val = s.ate_val
       ∧ s₂.cate_preds_val_ = s.cate_preds_val_ ∧ s₂.cate_preds_train_ = s.cate_preds_train_
       ∧ s₂.cal_res = s.cal_res ∧ s₂.uplift_res = s.uplift_res ∧ s₂.res = s.res
       ∧ s₂.blp_res = some r)
    ∧ (∀ s₂ r, evaluate_uplift s Xv Xt perc metric nB swv? swt? cu sf = .ok (s₂, r) →
       s₂.cate = s.cate ∧ s₂.Dval = s.Dval ∧ s₂.treatments = s.treatments
       ∧ s₂.n_treat = s.n_treat ∧ s₂.fit_on_train = s.fit_on_train
       ∧ s₂.dr_val_ = s.dr_val_ ∧ s₂.dr_train_ = s.dr_train_ ∧ s₂.ate_val = s.ate_val
       ∧ s₂.cate_preds_val_ = s.cate_preds_val_ ∧ s₂.cate_preds_train_ = s.cate_preds_train_
       ∧ s₂.cal_res = s.cal_res ∧ s₂.blp_res = s.blp_res ∧ s₂.res = s.res
       ∧ s₂.uplift_res = some r) := by
  refine ⟨?_, ?_, ?_⟩
  · intro s₂ r hok
    cases hdt : s.dr_train_ with
    | none =>
      simp [evaluate_cal, hdt] at hok
    | some dt =>
      cases hwv : weightsValid (toIntWeights (swv?.getD (List.replicate (cpv.shape.headD 0) (1 : ℚ)))) with
      | false =>
        rw [evaluate_cal_err_weights s Xv Xt nG swv? swt? wse dt cpv cpt hdt hv ht (Or.inl hwv)] at hok
        simp at hok
      | true =>
        cases hwt : weightsValid (toIntWeights (swt?.getD (List.replicate (cpt.shape.headD 0) (1 : ℚ)))) with
        | false =>
          rw [evaluate_cal_err_weights s Xv Xt nG swv? swt? wse dt cpv cpt hdt hv ht (Or.inr hwt)] at hok
          simp at hok
        | true =>
          rw [evaluate_cal_ok s Xv Xt nG swv? swt? wse dt cpv cpt hdt hv ht hwv hwt,
            Except.ok.injEq, Prod.mk.injEq] at hok
          obtain ⟨h1, h2⟩ := hok
          subst h1
          subst h2
          exact ⟨rfl, rfl, rfl, rfl, rfl, rfl, hdt, rfl, rfl, rfl, rfl, rfl, rfl, rfl⟩
  · intro s₂ r hok
    cases hdv : s.dr_val_ with
    | none =>
      simp [evaluate_blp, hdv] at hok
    | some dv =>
      rw [evaluate_blp_ok s Xv Xt swv? wls dv cpv hdv hv,
        Except.ok.injEq, Prod.mk.injEq] at hok
      obtain ⟨h1, h2⟩ := hok
      subst h1
      subst h2
      exact ⟨rfl, rfl, rfl, rfl, rfl, hdv, rfl, rfl, rfl, rfl, rfl, rfl, rfl, rfl⟩
  · intro s₂ r hok
    cases hdv : s.dr_val_ with
    | none =>
      simp [evaluate_uplift, hdv] at hok
    | some dv =>
      cases hwv : weightsValid (toIntWeights (swv?.getD (List.replicate (cpv.shape.headD 0) (1 : ℚ)))) with
      | false =>
        rw [evaluate_uplift_err_weights s Xv Xt perc metric nB swv? swt? cu sf dv cpv cpt
          hdv hv ht (Or.inl hwv)] at hok
        simp at hok
      | true =>
        cases hwt : weightsValid (toIntWeights (swt?.getD (List.replicate (cpt.shape.headD 0) (1 : ℚ)))) with
        | false =>
          rw [evaluate_uplift_err_weights s Xv Xt perc metric nB swv? swt? cu sf dv cpv cpt
            hdv hv ht (Or.inr hwt)] at hok
          simp at hok
        | true =>
          rw [evaluate_uplift_ok s Xv Xt perc metric nB swv? swt? cu sf dv cpv cpt
            hdv hv ht hwv hwt, Except.ok.injEq, Prod.mk.injEq] at hok
          obtain ⟨h1, h2⟩ := hok
          subst h1
          subst h2
          exact ⟨rfl, rfl, rfl, rfl, rfl, hdv, rfl, rfl, rfl, rfl, rfl, rfl, rfl, rfl⟩

/-- Claim C9 witness: the three tests re-run on a concrete fitted state. -/
theorem claim_C9_witness :
    (exampleState.cate_preds_val_ = some ⟨[2, 1], [0, 1]⟩)
    ∧ (exampleState.cate_preds_train_ = some ⟨[2, 1], [0, 1]⟩)
    ∧ (calRunEx.1.treatments = exampleState.treatments
       ∧ calRunEx.1.dr_val_ = exampleState.dr_val_
       ∧ calRunEx.1.ate_val = exampleState.ate_val
       ∧ calRunEx.1.cate_preds_val_ = exampleState.cate_preds_val_
       ∧ calRunEx.1.blp_res = exampleState.blp_res
       ∧ calRunEx.1.uplift_res = exampleState.uplift_res
       ∧ calRunEx.1.cal_res = some calRunEx.2)
    ∧ (blpRunEx.1.cal_res = exampleState.cal_res
       ∧ blpRunEx.1.uplift_res = exampleState.uplift_res
       ∧ blpRunEx.1.blp_res = some blpRunEx.2)
    ∧ (upliftRunEx.1.cal_res = exampleState.cal_res
       ∧ upliftRunEx.1.blp_res = exampleState.blp_res
       ∧ upliftRunEx.1.uplift_res = some upliftRunEx.2) := by
  have hcal := (claim_C9_result_overwrite exampleState none none 1 default_percentiles "qini" 1000
    none none wse0 wls0 cu0 sf0 ⟨[2, 1], [0, 1]⟩ ⟨[2, 1], [0, 1]⟩ rfl rfl).1
    calRunEx.1 calRunEx.2 rfl
  have hblp := (claim_C9_result_overwrite exampleState none none 1 default_percentiles "qini" 1000
    none none wse0 wls0 cu0 sf0 ⟨[2, 1], [0, 1]⟩ ⟨[2, 1], [0, 1]⟩ rfl rfl).2.1
    blpRunEx.1 blpRunEx.2 rfl
  have hup := (claim_C9_result_overwrite exampleState none none 1 default_percentiles "qini" 1000
    none none wse0 wls0 cu0 sf0 ⟨[2, 1], [0, 1]⟩ ⟨[2, 1], [0, 1]⟩ rfl rfl).2.2
    upliftRunEx.1 upliftRunEx.2 rfl
  refine ⟨rfl, rfl, ?_, ?_, ?_⟩
  · exact ⟨hcal.2.2.1, hcal.2.2.2.2.2.1, hcal.2.2.2.2.2.2.2.1, hcal.2.2.2.2.2.2.2.2.1,
      hcal.2.2.2.2.2.2.2.2.2.2.1, hcal.2.2.2.2.2.2.2.2.2.2.2.1, hcal.2.2.2.2.2.2.2.2.2.2.2.2.2⟩
  · exact ⟨hblp.2.2.2.2.2.2.2.2.2.2.1, hblp.2.2.2.2.2.2.2.2.2.2.2.1, hblp.2.2.2.2.2.2.2.2.2.2.2.2.2⟩
  · exact ⟨hup.2.2.2.2.2.2.2.2.2.2.1, hup.2.2.2.2.2.2.2.2.2.2.2.1, hup.2.2.2.2.2.2.2.2.2.2.2.2.2⟩

theorem binStat_empty (cuts : List ℚ) (nG i : ℕ) (catev drv : List ℚ) (ws : List ℤ)
    (wse : List ℚ → List ℤ → ℚ) (h : binRows cuts nG i catev drv ws = []) :
    binStat cuts nG i catev drv ws wse = ⟨0, 0, 0, 0, 0⟩ := by
  simp [binStat, h]

theorem binStat_nonempty (cuts : List ℚ) (nG i : ℕ) (catev drv : List ℚ) (ws : List ℤ)
    (wse : List ℚ → List ℤ → ℚ) (h : ¬ binRows cuts nG i catev drv ws = []) :
    binStat cuts nG i catev drv ws wse =
      { prob := wSumZ ((binRows cuts nG i catev drv ws).map (fun r => r.2.2)) / wSumZ ws,
        gate := wAvgI ((binRows cuts nG i catev drv ws).map (fun r => r.2.1))
          ((binRows cuts nG i catev drv ws).map (fun r => r.2.2)),
        seGate := wse ((binRows cuts nG i catev drv ws).map (fun r => r.2.1))
          ((binRows cuts nG i catev drv ws).map (fun r => r.2.2)),
        gCate := wAvgI ((binRows cuts nG i catev drv ws).map (fun r => r.1))
          ((binRows cuts nG i catev drv ws).map (fun r => r.2.2)),
        seGCate := wse ((binRows cuts nG i catev drv ws).map (fun r => r.1))
          ((binRows cuts nG i catev drv ws).map (fun r => r.2.2)) } := by
  have h' : (binRows cuts nG i catev drv ws).isEmpty = false := by
    simpa [List.isEmpty_iff] using h
  simp [binStat, h']

theorem calArm_probs_getD (cuts : List ℚ) (nG : ℕ) (catev drv : List ℚ) (ws : List ℤ)
    (ateK : ℚ) (wse : List ℚ → List ℤ → ℚ) (i : ℕ) (hi : i < nG) :
    (calArm cuts nG catev drv ws ateK wse).probs.getD i 0
      = (binStat cuts nG i catev drv ws wse).prob := by
  simp only [calArm, List.map_map, Function.comp_def]
  exact getD_map_range _ nG i 0 hi

theorem calArm_gate_getD (cuts : List ℚ) (nG : ℕ) (catev drv : List ℚ) (ws : List ℤ)
    (ateK : ℚ) (wse : List ℚ → List ℤ → ℚ) (i : ℕ) (hi : i < nG) :
    (calArm cuts nG catev drv ws ateK wse).gate.getD i 0
      = (binStat cuts nG i catev drv ws wse).gate := by
  simp only [calArm, List.map_map, Function.comp_def]
  exact getD_map_range _ nG i 0 hi

theorem calArm_g_cate_getD (cuts : List ℚ) (nG : ℕ) (catev drv : List ℚ) (ws : List ℤ)
    (ateK : ℚ) (wse : List ℚ → List ℤ → ℚ) (i : ℕ) (hi : i < nG) :
    (calArm cuts nG catev drv ws ateK wse).g_cate.getD i 0
      = (binStat cuts nG i catev drv ws wse).gCate := by
  simp only [calArm, List.map_map, Function.comp_def]
  exact getD_map_range _ nG i 0 hi

theorem calArm_se_gate_getD (cuts : List ℚ) (nG : ℕ) (catev drv : List ℚ) (ws : List ℤ)
    (ateK : ℚ) (wse : List ℚ → List ℤ → ℚ) (i : ℕ) (hi : i < nG) :
    (calArm cuts nG catev drv ws ateK wse).se_gate.getD i 0
      = (binStat cuts nG i catev drv ws wse).seGate := by
  simp only [calArm, List.map_map, Function.comp_def]
  exact getD_map_range _ nG i 0 hi

theorem calArm_se_g_cate_getD (cuts : List ℚ) (nG : ℕ) (catev drv : List ℚ) (ws : List ℤ)
    (ateK : ℚ) (wse : List ℚ → List ℤ → ℚ) (i : ℕ) (hi : i < nG) :
    (calArm cuts nG catev drv ws ateK wse).se_g_cate.getD i 0
      = (binStat cuts nG i catev drv ws wse).seGCate := by
  simp only [calArm, List.map_map, Function.comp_def]
  exact getD_map_range _ nG i 0 hi

/-- Claim C4: in the `evaluate_cal` loop, a bin with zero validation-unit
membership contributes exactly 0: its probability mass, gate, g_cate and both
standard-error entries remain at their zero initialization; and no
re-normalization happens: every bin's recorded mass is exactly its weight
share of the full validation weight total (so the masses of the non-empty
bins are not rescaled when some bin is empty). -/
theorem claim_C4_empty_bin_skip (cuts : List ℚ) (nG : ℕ) (catev drv : List ℚ) (ws : List ℤ)
    (ateK : ℚ) (wse : List ℚ → List ℤ → ℚ) (i : ℕ) (hi : i < nG)
    (hempty : binRows cuts nG i catev drv ws = []) :
    (calArm cuts nG catev drv ws ateK wse).probs.getD i 0 = 0
    ∧ (calArm cuts nG catev drv ws ateK wse).gate.getD i 0 = 0
    ∧ (calArm cuts nG catev drv ws ateK wse).g_cate.getD i 0 = 0
    ∧ (calArm cuts nG catev drv ws ateK wse).se_gate.getD i 0 = 0
    ∧ (calArm cuts nG catev drv ws ateK wse).se_g_cate.getD i 0 = 0
    ∧ (∀ j, j < nG →
        (calArm cuts nG catev drv ws ateK wse).probs.getD j 0
          = wSumZ ((binRows cuts nG j catev drv ws).map (fun r => r.2.2)) / wSumZ ws) := by
  have hz := binStat_empty cuts nG i catev drv ws wse hempty
  refine ⟨?_, ?_, ?_, ?_, ?_, ?_⟩
  · rw [calArm_probs_getD cuts nG catev drv ws ateK wse i hi, hz]
  · rw [calArm_gate_getD cuts nG catev drv ws ateK wse i hi, hz]
  · rw [calArm_g_cate_getD cuts nG catev drv ws ateK wse i hi, hz]
  · rw [calArm_se_gate_getD cuts nG catev drv ws ateK wse i hi, hz]
  · rw [calArm_se_g_cate_getD cuts nG catev drv ws ateK wse i hi, hz]
  · intro j hj
    rw [calArm_probs_getD cuts nG catev drv ws ateK wse j hj]
    by_cases hje : binRows cuts nG j catev drv ws = []
    · rw [binStat_empty cuts nG j catev drv ws wse hje, hje]
      simp [wSumZ]
    · rw [binStat_nonempty cuts nG j catev drv ws wse hje]

/-- Claim C4 witness: bin 1 of `[cut_1, cut_2] = [1, 2]` is empty when both
CATE predictions are 0. -/
theorem claim_C4_witness :
    (1 < 2)
    ∧ (binRows [0, 1, 2] 2 1 [0, 0] [5, 7] [1, 1] = [])
    ∧ ((calArm [0, 1, 2] 2 [0, 0] [5, 7] [1, 1] 0 wse0).probs.getD 1 0 = 0
      ∧ (calArm [0, 1, 2] 2 [0, 0] [5, 7] [1, 1] 0 wse0).gate.getD 1 0 = 0
      ∧ (calArm [0, 1, 2] 2 [0, 0] [5, 7] [1, 1] 0 wse0).g_cate.getD 1 0 = 0
      ∧ (calArm [0, 1, 2] 2 [0, 0] [5, 7] [1, 1] 0 wse0).se_gate.getD 1 0 = 0
      ∧ (calArm [0, 1, 2] 2 [0, 0] [5, 7] [1, 1] 0 wse0).se_g_cate.getD 1 0 = 0
      ∧ (∀ j, j < 2 →
          (calArm [0, 1, 2] 2 [0, 0] [5, 7] [1, 1] 0 wse0).probs.getD j 0
            = wSumZ ((binRows [0, 1, 2] 2 j [0, 0] [5, 7] [1, 1]).map (fun r => r.2.2))
                / wSumZ [1, 1])) :=
  ⟨by decide, by decide,
   claim_C4_empty_bin_skip [0, 1, 2] 2 [0, 0] [5, 7] [1, 1] 0 wse0 1 (by decide) (by decide)⟩

theorem calG_term_eq (cuts : List ℚ) (nG : ℕ) (catev drv : List ℚ) (ws : List ℤ)
    (wse : List ℚ → List ℤ → ℚ) (i : ℕ) :
    |(binStat cuts nG i catev drv ws wse).gate - (binStat cuts nG i catev drv ws wse).gCate|
        * (binStat cuts nG i catev drv ws wse).prob
      = binMassSpec cuts nG i catev drv ws
        * |gateSpec cuts nG i catev drv ws - gCateSpec cuts nG i catev drv ws| := by
  by_cases h : binRows cuts nG i catev drv ws = []
  · rw [binStat_empty cuts nG i catev drv ws wse h, binMassSpec, gateSpec, gCateSpec, h]
    simp [wSumZ, wAvgI]
  · rw [binStat_nonempty cuts nG i catev drv ws wse h, binMassSpec, gateSpec, gCateSpec]
    exact mul_comm _ _

theorem calO_term_eq (cuts : List ℚ) (nG : ℕ) (catev drv : List ℚ) (ws : List ℤ)
    (ateK : ℚ) (wse : List ℚ → List ℤ → ℚ) (i : ℕ) :
    |(binStat cuts nG i catev drv ws wse).gate - ateK|
        * (binStat cuts nG i catev drv ws wse).prob
      = binMassSpec cuts nG i catev drv ws
        * |gateSpec cuts nG i catev drv ws - ateK| := by
  by_cases h : binRows cuts nG i catev drv ws = []
  · rw [binStat_empty cuts nG i catev drv ws wse h, binMassSpec, gateSpec, h]
    simp [wSumZ, wAvgI]
  · rw [binStat_nonempty cuts nG i catev drv ws wse h, binMassSpec, gateSpec]
    exact mul_comm _ _

theorem calG_code_eq (cuts : List ℚ) (nG : ℕ) (catev drv : List ℚ) (ws : List ℤ)
    (wse : List ℚ → List ℤ → ℚ) :
    (((((List.range nG).map (fun i => (binStat cuts nG i catev drv ws wse).gate)).zip
        ((List.range nG).map (fun i => (binStat cuts nG i catev drv ws wse).gCate))).zip
        ((List.range nG).map (fun i => (binStat cuts nG i catev drv ws wse).prob))).map
        (fun p => |p.1.1 - p.1.2| * p.2)).sum
      = calGSpec cuts nG catev drv ws := by
  rw [List.zip_map', List.zip_map', List.map_map, calGSpec]
  refine congrArg List.sum (List.map_congr_left ?_)
  intro i _
  simp only [Function.comp_apply]
  exact calG_term_eq cuts nG catev drv ws wse i

theorem calO_code_eq (cuts : List ℚ) (nG : ℕ) (catev drv : List ℚ) (ws : List ℤ)
    (ateK : ℚ) (wse : List ℚ → List ℤ → ℚ) :
    ((((List.range nG).map (fun i => (binStat cuts nG i catev drv ws wse).gate)).zip
        ((List.range nG).map (fun i => (binStat cuts nG i catev drv ws wse).prob))).map
        (fun p => |p.1 - ateK| * p.2)).sum
      = calOSpec cuts nG catev drv ws ateK := by
  rw [List.zip_map', List.map_map, calOSpec]
  refine congrArg List.sum (List.map_congr_left ?_)
  intro i _
  simp only [Function.comp_apply]
  exact calO_term_eq cuts nG catev drv ws ateK wse i

theorem calArm_score_eq (cuts : List ℚ) (nG : ℕ) (catev drv : List ℚ) (ws : List ℤ)
    (ateK : ℚ) (wse : List ℚ → List ℤ → ℚ) :
    (calArm cuts nG catev drv ws ateK wse).score
      = 1 - calGSpec cuts nG catev drv ws / calOSpec cuts nG catev drv ws ateK := by
  simp only [calArm, List.map_map, Function.comp_def]
  rw [calG_code_eq cuts nG catev drv ws wse, calO_code_eq cuts nG catev drv ws ateK wse]

theorem cal_results_score (s1 : DRTesterState) (nG : ℕ) (swvI swtI : List ℤ)
    (wse : List ℚ → List ℤ → ℚ) (k : ℕ) (hk : k < s1.n_treat) :
    (cal_results s1 nG swvI swtI wse).cal_r_squared.getD k 0
      = (calArm (weighted_stat_quantile ((s1.cate_preds_train_.getD ⟨[], []⟩).col k) swtI nG) nG
          ((s1.cate_preds_val_.getD ⟨[], []⟩).col k) ((s1.dr_val_.getD ⟨[], []⟩).col k) swvI
          (s1.ate_val.getD k 0) wse).score := by
  simp only [cal_results, List.map_map, Function.comp_def]
  exact getD_map_range _ s1.n_treat k 0 hk

/-- Claim C1: for every arm `k` on a validation sample with at least one
non-empty bin (and a non-degenerate overall calibration error), the reported
calibration score equals `1 - Cal_G / Cal_O`, where `Cal_G` sums each bin's
weighted probability mass times `|gate_i - g_cate_i|` (`gate_i` the bin's
weighted mean DR outcome, `g_cate_i` the bin's weighted mean CATE prediction)
and `Cal_O` sums the mass times `|gate_i - ATE_k|` with `ATE_k` the arm's
stored validation-sample weighted ATE. -/
theorem claim_C1_cal_score (s : DRTesterState) (Xv Xt : Option (List (List ℚ))) (nG : ℕ)
    (swv? swt? : Option (List ℚ)) (wse : List ℚ → List ℤ → ℚ)
    (s₂ : DRTesterState) (r : CalibrationEvaluationResults) (k : ℕ)
    (dt dv cpv cpt : NpArray)
    (hdt : s.dr_train_ = some dt) (hdv : s.dr_val_ = some dv)
    (hv : s.cate_preds_val_ = some cpv) (ht : s.cate_preds_train_ = some cpt)
    (hok : evaluate_cal s Xv Xt nG swv? swt? wse = .ok (s₂, r))
    (hk : k < s.n_treat)
    (hne : ∃ i < nG,
      binRows (weighted_stat_quantile (cpt.col k)
          (toIntWeights (swt?.getD (List.replicate (cpt.shape.headD 0) (1 : ℚ)))) nG) nG i
        (cpv.col k) (dv.col k)
        (toIntWeights (swv?.getD (List.replicate (cpv.shape.headD 0) (1 : ℚ)))) ≠ [])
    (hOz : calOSpec (weighted_stat_quantile (cpt.col k)
          (toIntWeights (swt?.getD (List.replicate (cpt.shape.headD 0) (1 : ℚ)))) nG) nG
        (cpv.col k) (dv.col k)
        (toIntWeights (swv?.getD (List.replicate (cpv.shape.headD 0) (1 : ℚ))))
        (s.ate_val.getD k 0) ≠ 0) :
    r.cal_r_squared.getD k 0
      = 1 - calGSpec (weighted_stat_quantile (cpt.col k)
              (toIntWeights (swt?.getD (List.replicate (cpt.shape.headD 0) (1 : ℚ)))) nG) nG
            (cpv.col k) (dv.col k)
            (toIntWeights (swv?.getD (List.replicate (cpv.shape.headD 0) (1 : ℚ))))
          / calOSpec (weighted_stat_quantile (cpt.col k)
              (toIntWeights (swt?.getD (List.replicate (cpt.shape.headD 0) (1 : ℚ)))) nG) nG
            (cpv.col k) (dv.col k)
            (toIntWeights (swv?.getD (List.replicate (cpv.shape.headD 0) (1 : ℚ))))
            (s.ate_val.getD k 0) := by
  cases hwv : weightsValid (toIntWeights (swv?.getD (List.replicate (cpv.shape.headD 0) (1 : ℚ)))) with
  | false =>
    rw [evaluate_cal_err_weights s Xv Xt nG swv? swt? wse dt cpv cpt hdt hv ht (Or.inl hwv)] at hok
    simp at hok
  | true =>
    cases hwt : weightsValid (toIntWeights (swt?.getD (List.replicate (cpt.shape.headD 0) (1 : ℚ)))) with
    | false =>
      rw [evaluate_cal_err_weights s Xv Xt nG swv? swt? wse dt cpv cpt hdt hv ht (Or.inr hwt)] at hok
      simp at hok
    | true =>
      rw [evaluate_cal_ok s Xv Xt nG swv? swt? wse dt cpv cpt hdt hv ht hwv hwt,
        Except.ok.injEq, Prod.mk.injEq] at hok
      obtain ⟨h1, h2⟩ := hok
      subst h2
      rw [cal_results_score s nG _ _ wse k hk]
      rw [hv, ht, hdv, Option.getD_some, Option.getD_some, Option.getD_some]
      exact calArm_score_eq _ nG _ _ _ _ wse

/-- Claim C1 witness on a concrete calibration run (one group, two units):
the reported score is `1 - Cal_G/Cal_O` built from weighted bin means. -/
theorem claim_C1_witness :
    (0 < exampleState.n_treat)
    ∧ (∃ i < 1,
        binRows (weighted_stat_quantile ((⟨[2, 1], [0, 1]⟩ : NpArray).col 0)
            (toIntWeights ((none : Option (List ℚ)).getD
              (List.replicate ((⟨[2, 1], [0, 1]⟩ : NpArray).shape.headD 0) (1 : ℚ)))) 1) 1 i
          ((⟨[2, 1], [0, 1]⟩ : NpArray).col 0) ((⟨[2, 1], [0, 2]⟩ : NpArray).col 0)
          (toIntWeights ((none : Option (List ℚ)).getD
            (List.replicate ((⟨[2, 1], [0, 1]⟩ : NpArray).shape.headD 0) (1 : ℚ)))) ≠ [])
    ∧ (calOSpec (weighted_stat_quantile ((⟨[2, 1], [0, 1]⟩ : NpArray).col 0)
          (toIntWeights ((none : Option (List ℚ)).getD
            (List.replicate ((⟨[2, 1], [0, 1]⟩ : NpArray).shape.headD 0) (1 : ℚ)))) 1) 1
        ((⟨[2, 1], [0, 1]⟩ : NpArray).col 0) ((⟨[2, 1], [0, 2]⟩ : NpArray).col 0)
        (toIntWeights ((none : Option (List ℚ)).getD
          (List.replicate ((⟨[2, 1], [0, 1]⟩ : NpArray).shape.headD 0) (1 : ℚ))))
        (exampleState.ate_val.getD 0 0) ≠ 0)
    ∧ (calRunEx.2.cal_r_squared.getD 0 0
        = 1 - calGSpec (weighted_stat_quantile ((⟨[2, 1], [0, 1]⟩ : NpArray).col 0)
                (toIntWeights ((none : Option (List ℚ)).getD
                  (List.replicate ((⟨[2, 1], [0, 1]⟩ : NpArray).shape.headD 0) (1 : ℚ)))) 1) 1
              ((⟨[2, 1], [0, 1]⟩ : NpArray).col 0) ((⟨[2, 1], [0, 2]⟩ : NpArray).col 0)
              (toIntWeights ((none : Option (List ℚ)).getD
                (List.replicate ((⟨[2, 1], [0, 1]⟩ : NpArray).shape.headD 0) (1 : ℚ))))
            / calOSpec (weighted_stat_quantile ((⟨[2, 1], [0, 1]⟩ : NpArray).col 0)
                (toIntWeights ((none : Option (List ℚ)).getD
                  (List.replicate ((⟨[2, 1], [0, 1]⟩ : NpArray).shape.headD 0) (1 : ℚ)))) 1) 1
              ((⟨[2, 1], [0, 1]⟩ : NpArray).col 0) ((⟨[2, 1], [0, 2]⟩ : NpArray).col 0)
              (toIntWeights ((none : Option (List ℚ)).getD
                (List.replicate ((⟨[2, 1], [0, 1]⟩ : NpArray).shape.headD 0) (1 : ℚ))))
              (exampleState.ate_val.getD 0 0)) := by
  have hA : (⟨[2, 1], [0, 1]⟩ : NpArray).col 0 = [0, 1] := by decide
  have hD : (⟨[2, 1], [0, 2]⟩ : NpArray).col 0 = [0, 2] := by decide
  have hW : toIntWeights ((none : Option (List ℚ)).getD
      (List.replicate ((⟨[2, 1], [0, 1]⟩ : NpArray).shape.headD 0) (1 : ℚ))) = [1, 1] := by decide
  have hcuts : weighted_stat_quantile [0, 1] [1, 1] 1 = [0, 1] := by
    rw [weighted_stat_quantile]
    rw [show (expandWeighted [0, 1] [1, 1]).insertionSort (· ≤ ·) = [0, 1] from by decide]
    rw [show List.range 2 = [0, 1] from rfl]
    rw [List.map_cons, List.map_cons, List.map_nil]
    rw [quantileSorted, quantileSorted]
    norm_num
  have hate : exampleState.ate_val.getD 0 0 = 0 := rfl
  have hOz1 : calOSpec [0, 1] 1 [0, 1] [0, 2] [1, 1] 0 = 1 := by
    rw [calOSpec, show List.range 1 = [0] from rfl, List.map_cons, List.map_nil, List.sum_cons,
      List.sum_nil]
    rw [binMassSpec, gateSpec,
      show binRows [0, 1] 1 0 [0, 1] [0, 2] [1, 1] = [(0, 0, 1), (1, 2, 1)] from by decide]
    norm_num [wSumZ, wAvgI]
  have hne : ∃ i < 1,
      binRows (weighted_stat_quantile ((⟨[2, 1], [0, 1]⟩ : NpArray).col 0)
          (toIntWeights ((none : Option (List ℚ)).getD
            (List.replicate ((⟨[2, 1], [0, 1]⟩ : NpArray).shape.headD 0) (1 : ℚ)))) 1) 1 i
        ((⟨[2, 1], [0, 1]⟩ : NpArray).col 0) ((⟨[2, 1], [0, 2]⟩ : NpArray).col 0)
        (toIntWeights ((none : Option (List ℚ)).getD
          (List.replicate ((⟨[2, 1], [0, 1]⟩ : NpArray).shape.headD 0) (1 : ℚ)))) ≠ [] := by
    refine ⟨0, Nat.zero_lt_one, ?_⟩
    rw [hA, hD, hW, hcuts]
    decide
  have hOz : calOSpec (weighted_stat_quantile ((⟨[2, 1], [0, 1]⟩ : NpArray).col 0)
        (toIntWeights ((none : Option (List ℚ)).getD
          (List.replicate ((⟨[2, 1], [0, 1]⟩ : NpArray).shape.headD 0) (1 : ℚ)))) 1) 1
      ((⟨[2, 1], [0, 1]⟩ : NpArray).col 0) ((⟨[2, 1], [0, 2]⟩ : NpArray).col 0)
      (toIntWeights ((none : Option (List ℚ)).getD
        (List.replicate ((⟨[2, 1], [0, 1]⟩ : NpArray).shape.headD 0) (1 : ℚ))))
      (exampleState.ate_val.getD 0 0) ≠ 0 := by
    rw [hA, hD, hW, hcuts, hate, hOz1]
    norm_num
  exact ⟨by decide, hne, hOz,
    claim_C1_cal_score exampleState none none 1 none none wse0 calRunEx.1 calRunEx.2 0
      ⟨[2, 1], [0, 2]⟩ ⟨[2, 1], [0, 2]⟩ ⟨[2, 1], [0, 1]⟩ ⟨[2, 1], [0, 1]⟩
      rfl rfl rfl rfl rfl (by decide) hne hOz⟩

theorem sorted_getD_mono (a : List ℚ) (ha : List.Sorted (· ≤ ·) a) {i k : ℕ}
    (hik : i ≤ k) (hk : k < a.length) : a.getD i 0 ≤ a.getD k 0 := by
  have hi : i < a.length := lt_of_le_of_lt hik hk
  rw [List.getD_eq_getElem a 0 hi, List.getD_eq_getElem a 0 hk]
  have hfin : (⟨i, hi⟩ : Fin a.length) ≤ ⟨k, hk⟩ := hik
  simpa using List.Sorted.rel_get_of_le ha hfin

theorem quantileSorted_mono (a : List ℚ) (ha : List.Sorted (· ≤ ·) a)
    (q₁ q₂ : ℚ) (h0 : 0 ≤ q₁) (h12 : q₁ ≤ q₂) (h1 : q₂ ≤ 1) :
    quantileSorted a q₁ ≤ quantileSorted a q₂ := by
  rcases Nat.eq_zero_or_pos a.length with hm | hm
  · have ha0 : a = [] := List.length_eq_zero.mp hm
    subst ha0
    simp [quantileSorted]
  · simp only [quantileSorted]
    have hM0 : (0 : ℚ) ≤ (a.length : ℚ) - 1 := by
      have hc : (1 : ℚ) ≤ (a.length : ℚ) := by exact_mod_cast hm
      linarith
    have hh10 : 0 ≤ q₁ * ((a.length : ℚ) - 1) := mul_nonneg h0 hM0
    have hh20 : 0 ≤ q₂ * ((a.length : ℚ) - 1) := mul_nonneg (le_trans h0 h12) hM0
    have hh12 : q₁ * ((a.length : ℚ) - 1) ≤ q₂ * ((a.length : ℚ) - 1) :=
      mul_le_mul_of_nonneg_right h12 hM0
    have hh2M : q₂ * ((a.length : ℚ) - 1) ≤ (a.length : ℚ) - 1 := by
      calc q₂ * ((a.length : ℚ) - 1) ≤ 1 * ((a.length : ℚ) - 1) :=
            mul_le_mul_of_nonneg_right h1 hM0
        _ = (a.length : ℚ) - 1 := one_mul _
    set h₁ := q₁ * ((a.length : ℚ) - 1) with hh1def
    set h₂ := q₂ * ((a.length : ℚ) - 1) with hh2def
    have hf10 : (0 : ℤ) ≤ ⌊h₁⌋ := Int.floor_nonneg.mpr hh10
    have hf20 : (0 : ℤ) ≤ ⌊h₂⌋ := Int.floor_nonneg.mpr hh20
    have hc1 : ((⌊h₁⌋.toNat : ℕ) : ℚ) = ((⌊h₁⌋ : ℤ) : ℚ) := by
      exact_mod_cast Int.toNat_of_nonneg hf10
    have hc2 : ((⌊h₂⌋.toNat : ℕ) : ℚ) = ((⌊h₂⌋ : ℤ) : ℚ) := by
      exact_mod_cast Int.toNat_of_nonneg hf20
    have hj1le : ((⌊h₁⌋.toNat : ℕ) : ℚ) ≤ h₁ := by
      rw [hc1]
      exact Int.floor_le h₁
    have hj2le : ((⌊h₂⌋.toNat : ℕ) : ℚ) ≤ h₂ := by
      rw [hc2]
      exact Int.floor_le h₂
    have hj1lt : h₁ < ((⌊h₁⌋.toNat : ℕ) : ℚ) + 1 := by
      rw [hc1]
      exact Int.lt_floor_add_one h₁
    have hfle : ⌊h₂⌋ ≤ (a.length : ℤ) - 1 := by
      calc ⌊h₂⌋ ≤ ⌊(a.length : ℚ) - 1⌋ := Int.floor_le_floor hh2M
        _ = (a.length : ℤ) - 1 := by
            rw [show ((a.length : ℚ) - 1) = (((a.length : ℤ) - 1 : ℤ) : ℚ) by push_cast; ring]
            exact Int.floor_intCast _
    have hj2m : ⌊h₂⌋.toNat ≤ a.length - 1 := by omega
    have hj2lt : ⌊h₂⌋.toNat < a.length := by omega
    have hfloor12 : ⌊h₁⌋ ≤ ⌊h₂⌋ := Int.floor_le_floor hh12
    have hj1j2 : ⌊h₁⌋.toNat ≤ ⌊h₂⌋.toNat := by omega
    rcases Nat.lt_or_ge ⌊h₁⌋.toNat ⌊h₂⌋.toNat with hlt | hge
    · have hj1lt_m : ⌊h₁⌋.toNat + 1 < a.length := by omega
      have hA1 : a.getD ⌊h₁⌋.toNat 0 ≤ a.getD (⌊h₁⌋.toNat + 1) 0 :=
        sorted_getD_mono a ha (Nat.le_succ _) hj1lt_m
      have hA2 : a.getD (⌊h₁⌋.toNat + 1) 0 ≤ a.getD ⌊h₂⌋.toNat 0 :=
        sorted_getD_mono a ha hlt hj2lt
      have hg1le1 : h₁ - ((⌊h₁⌋.toNat : ℕ) : ℚ) ≤ 1 := by linarith
      have hg20 : 0 ≤ h₂ - ((⌊h₂⌋.toNat : ℕ) : ℚ) := by linarith
      have hstep1 : a.getD ⌊h₁⌋.toNat 0
          + (h₁ - ((⌊h₁⌋.toNat : ℕ) : ℚ)) * (a.getD (⌊h₁⌋.toNat + 1) 0 - a.getD ⌊h₁⌋.toNat 0)
          ≤ a.getD (⌊h₁⌋.toNat + 1) 0 := by
        have hmul : (h₁ - ((⌊h₁⌋.toNat : ℕ) : ℚ))
              * (a.getD (⌊h₁⌋.toNat + 1) 0 - a.getD ⌊h₁⌋.toNat 0)
            ≤ 1 * (a.getD (⌊h₁⌋.toNat + 1) 0 - a.getD ⌊h₁⌋.toNat 0) :=
          mul_le_mul_of_nonneg_right hg1le1 (by linarith)
        linarith
      have hstep2 : a.getD ⌊h₂⌋.toNat 0 ≤ a.getD ⌊h₂⌋.toNat 0
          + (h₂ - ((⌊h₂⌋.toNat : ℕ) : ℚ)) * (a.getD (⌊h₂⌋.toNat + 1) 0 - a.getD ⌊h₂⌋.toNat 0) := by
        by_cases hend : ⌊h₂⌋.toNat + 1 < a.length
        · have hA3 : a.getD ⌊h₂⌋.toNat 0 ≤ a.getD (⌊h₂⌋.toNat + 1) 0 :=
            sorted_getD_mono a ha (Nat.le_succ _) hend
          nlinarith [mul_nonneg hg20 (sub_nonneg.mpr hA3)]
        · have hj2n : ⌊h₂⌋.toNat = a.length - 1 := by omega
          have hj2eq : ((⌊h₂⌋.toNat : ℕ) : ℚ) = (a.length : ℚ) - 1 := by
            rw [hj2n, Nat.cast_sub hm]
            norm_num
          have hg2z : h₂ - ((⌊h₂⌋.toNat : ℕ) : ℚ) = 0 := by
            rw [hj2eq]
            have hge2 : (a.length : ℚ) - 1 ≤ h₂ := by
              rw [← hj2eq]
              exact hj2le
            linarith
          rw [hg2z]
          simp
      linarith
    · have hje : ⌊h₁⌋.toNat = ⌊h₂⌋.toNat := le_antisymm hj1j2 hge
      rw [← hje]
      by_cases hend : ⌊h₁⌋.toNat + 1 < a.length
      · have hA : a.getD ⌊h₁⌋.toNat 0 ≤ a.getD (⌊h₁⌋.toNat + 1) 0 :=
          sorted_getD_mono a ha (Nat.le_succ _) hend
        have hg12 : h₁ - ((⌊h₁⌋.toNat : ℕ) : ℚ) ≤ h₂ - ((⌊h₁⌋.toNat : ℕ) : ℚ) := by linarith
        have hmul := mul_le_mul_of_nonneg_right hg12 (sub_nonneg.mpr hA)
        linarith
      · have hj1ltlen : ⌊h₁⌋.toNat < a.length := by omega
        have hj1n : ⌊h₁⌋.toNat = a.length - 1 := by omega
        have hj1eq : ((⌊h₁⌋.toNat : ℕ) : ℚ) = (a.length : ℚ) - 1 := by
          rw [hj1n, Nat.cast_sub hm]
          norm_num
        have hg1z : h₁ - ((⌊h₁⌋.toNat : ℕ) : ℚ) = 0 := by
          have h1le : h₁ ≤ ((⌊h₁⌋.toNat : ℕ) : ℚ) := by
            rw [hj1eq]
            linarith
          linarith
        have hg2z : h₂ - ((⌊h₁⌋.toNat : ℕ) : ℚ) = 0 := by
          have h2ge : ((⌊h₁⌋.toNat : ℕ) : ℚ) ≤ h₂ := by
            rw [hje]
            exact hj2le
          have h2le : h₂ ≤ ((⌊h₁⌋.toNat : ℕ) : ℚ) := by
            rw [hj1eq]
            linarith
          linarith
        rw [hg1z, hg2z]

theorem weighted_stat_quantile_adj (vals : List ℚ) (ws : List ℤ) (n_groups : ℕ)
    (i : ℕ) (hi : i + 1 ≤ n_groups) :
    (weighted_stat_quantile vals ws n_groups).getD i 0
      ≤ (weighted_stat_quantile vals ws n_groups).getD (i + 1) 0 := by
  have hnG : 0 < n_groups := by omega
  have hnGQ : (0 : ℚ) < (n_groups : ℚ) := by exact_mod_cast hnG
  rw [weighted_stat_quantile]
  rw [getD_map_range _ (n_groups + 1) i 0 (by omega),
    getD_map_range _ (n_groups + 1) (i + 1) 0 (by omega)]
  apply quantileSorted_mono _ (List.sorted_insertionSort _ _)
  · positivity
  · rw [div_le_div_iff_of_pos_right hnGQ]
    push_cast
    linarith
  · rw [div_le_one hnGQ]
    exact_mod_cast hi

theorem weighted_stat_quantile_mono (vals : List ℚ) (ws : List ℤ) (n_groups : ℕ)
    {i k : ℕ} (hik : i ≤ k) (hk : k ≤ n_groups) :
    (weighted_stat_quantile vals ws n_groups).getD i 0
      ≤ (weighted_stat_quantile vals ws n_groups).getD k 0 := by
  induction k, hik using Nat.le_induction with
  | base => exact le_refl _
  | succ k hik ih =>
    exact le_trans (ih (by omega)) (weighted_stat_quantile_adj vals ws n_groups k hk)

/-- Claim C3: refuted as stated.  With training CATE predictions `[0, 1]`
(unit weights, 2 groups) the cut points are `[0, 1/2, 1]`, and a validation
unit with CATE prediction `5` falls in no bin at all — not in exactly one. -/
theorem claim_C3_counterexample :
    groupInd (weighted_stat_quantile [0, 1] [1, 1] 2) 2 0 5 = false
    ∧ groupInd (weighted_stat_quantile [0, 1] [1, 1] 2) 2 1 5 = false := by
  have hq : q12 = 1 / 2 := by
    rw [show q12 = Rat.mk' 1 2 (by decide) (by decide) from rfl, Rat.mk'_eq_divInt,
      Rat.divInt_eq_div]
    norm_num
  have hcuts : weighted_stat_quantile [0, 1] [1, 1] 2 = [0, q12, 1] := by
    rw [hq]
    rw [weighted_stat_quantile]
    rw [show (expandWeighted [0, 1] [1, 1]).insertionSort (· ≤ ·) = [0, 1] from by decide]
    rw [show List.range 3 = [0, 1, 2] from rfl]
    rw [List.map_cons, List.map_cons, List.map_cons, List.map_nil]
    rw [quantileSorted, quantileSorted, quantileSorted]
    norm_num
  rw [hcuts]
  constructor <;> decide

/-- Claim C3 (amended): every validation unit is assigned to at most one of
the `n_groups` bins defined by the weighted-quantile cut points of the
training CATE predictions: membership in bin `i < n_groups - 1` holds iff
`cuts[i] ≤ pred < cuts[i+1]`, membership in the last bin iff
`cuts[n_groups-1] ≤ pred ≤ cuts[n_groups]`, two distinct bins never share a
unit, and a unit whose prediction lies below `cuts[0]` or above
`cuts[n_groups]` is in no bin. -/
theorem claim_C3_bin_assignment (trainVals : List ℚ) (wsT : List ℤ) (n_groups : ℕ) (x : ℚ) :
    (∀ i j, i < n_groups → j < n_groups →
       groupInd (weighted_stat_quantile trainVals wsT n_groups) n_groups i x = true →
       groupInd (weighted_stat_quantile trainVals wsT n_groups) n_groups j x = true → i = j)
    ∧ (∀ i, i < n_groups →
        (groupInd (weighted_stat_quantile trainVals wsT n_groups) n_groups i x = true
          ↔ ((weighted_stat_quantile trainVals wsT n_groups).getD i 0 ≤ x
             ∧ (if i < n_groups - 1
                then x < (weighted_stat_quantile trainVals wsT n_groups).getD (i + 1) 0
                else x ≤ (weighted_stat_quantile trainVals wsT n_groups).getD (i + 1) 0))))
    ∧ ((x < (weighted_stat_quantile trainVals wsT n_groups).getD 0 0
        ∨ (weighted_stat_quantile trainVals wsT n_groups).getD n_groups 0 < x) →
       ∀ i, i < n_groups →
         groupInd (weighted_stat_quantile trainVals wsT n_groups) n_groups i x = false) := by
  have hchar : ∀ i, i < n_groups →
      (groupInd (weighted_stat_quantile trainVals wsT n_groups) n_groups i x = true
        ↔ ((weighted_stat_quantile trainVals wsT n_groups).getD i 0 ≤ x
           ∧ (if i < n_groups - 1
              then x < (weighted_stat_quantile trainVals wsT n_groups).getD (i + 1) 0
              else x ≤ (weighted_stat_quantile trainVals wsT n_groups).getD (i + 1) 0))) := by
    intro i _
    by_cases hc : i < n_groups - 1 <;> simp [groupInd, hc]
  have hkey : ∀ i j, i < j → j < n_groups →
      groupInd (weighted_stat_quantile trainVals wsT n_groups) n_groups i x = true →
      groupInd (weighted_stat_quantile trainVals wsT n_groups) n_groups j x = true → False := by
    intro i j hij hj hmi hmj
    have hci : i < n_groups - 1 := by omega
    have hiup : x < (weighted_stat_quantile trainVals wsT n_groups).getD (i + 1) 0 := by
      rw [hchar i (by omega)] at hmi
      rw [if_pos hci] at hmi
      exact hmi.2
    have hjlow : (weighted_stat_quantile trainVals wsT n_groups).getD j 0 ≤ x := by
      rw [hchar j hj] at hmj
      exact hmj.1
    have hmono : (weighted_stat_quantile trainVals wsT n_groups).getD (i + 1) 0
        ≤ (weighted_stat_quantile trainVals wsT n_groups).getD j 0 :=
      weighted_stat_quantile_mono trainVals wsT n_groups (by omega) (by omega)
    linarith
  refine ⟨?_, hchar, ?_⟩
  · intro i j hi hj hmi hmj
    rcases lt_trichotomy i j with h | h | h
    · exact absurd (hkey i j h hj hmi hmj) (fun f => f)
    · exact h
    · exact absurd (hkey j i h hi hmj hmi) (fun f => f)
  · intro hout i hi
    rw [Bool.eq_false_iff]
    intro hmem
    have hlow : (weighted_stat_quantile trainVals wsT n_groups).getD i 0 ≤ x :=
      ((hchar i hi).mp hmem).1
    have hup : x ≤ (weighted_stat_quantile trainVals wsT n_groups).getD (i + 1) 0 := by
      have h2 := ((hchar i hi).mp hmem).2
      by_cases hc : i < n_groups - 1
      · rw [if_pos hc] at h2
        exact le_of_lt h2
      · rw [if_neg hc] at h2
        exact h2
    have hm1 : (weighted_stat_quantile trainVals wsT n_groups).getD 0 0
        ≤ (weighted_stat_quantile trainVals wsT n_groups).getD i 0 :=
      weighted_stat_quantile_mono trainVals wsT n_groups (Nat.zero_le i) (by omega)
    have hm2 : (weighted_stat_quantile trainVals wsT n_groups).getD (i + 1) 0
        ≤ (weighted_stat_quantile trainVals wsT n_groups).getD n_groups 0 :=
      weighted_stat_quantile_mono trainVals wsT n_groups (by omega) (le_refl n_groups)
    rcases hout with h | h
    · linarith
    · linarith

/-- Claim C3 (amended) witness: the last-bin membership characterization at a
concrete cut configuration. -/
theorem claim_C3_witness :
    (1 < 2)
    ∧ (groupInd (weighted_stat_quantile [0, 1] [1, 1] 2) 2 1 1 = true
        ↔ ((weighted_stat_quantile [0, 1] [1, 1] 2).getD 1 0 ≤ 1
           ∧ (if 1 < 2 - 1 then (1 : ℚ) < (weighted_stat_quantile [0, 1] [1, 1] 2).getD 2 0
              else (1 : ℚ) ≤ (weighted_stat_quantile [0, 1] [1, 1] 2).getD 2 0))) :=
  ⟨by decide, (claim_C3_bin_assignment [0, 1] [1, 1] 2 1).2.1 1 (by decide)⟩
